import Mathlib

/-!
# Session client of the university-portal mobile app

A shallow embedding of `src/api/config.js` and of two form handlers of the
screens (`toggleCourse` and `addCustomCourse` of the semester registration,
`validateForm` of the registration form).  For `config.js`: the persisted
credential store
(`AsyncStorage` under the keys `accessToken`, `refreshToken`, `user`), the
network layer (`debugFetch`, `testBackendConnection`), and the session
operations built on them (`loginUser`, `registerUser`, `refreshAccessToken`,
`fetchWithAuth`, `logoutUser`).

Every `async` function of the module becomes a function in the monad `Js`,
which threads the observable world (store contents, the list of requests handed
to `fetch`, the number of storage calls made) and carries a thrown JavaScript
error as `Except.error`.  What the outside does (the server's answers, a storage
call that rejects) is fixed by an `Env`.  Logging calls have no effect on the
world and are left out.
-/

namespace Session

/-! ## JavaScript values -/

/-- A thrown JavaScript error: its `name` and its `message`. -/
structure JsError where
  name : String
  message : String
deriving DecidableEq, Repr

/-- JavaScript values as they come out of `JSON.parse` (plus `undefined`, the
value of a missing property).  Numbers are kept as integers; an object is the
list of its own properties, the first binding of a key being its value. -/
inductive JsVal where
  | undefined
  | null
  | bool (b : Bool)
  | num (n : Int)
  | str (s : String)
  | arr (items : List JsVal)
  | obj (fields : List (String × JsVal))
deriving Repr

/-- `new Error(message)` for a string message. -/
def newError (message : String) : JsError := ⟨"Error", message⟩

/-- JavaScript truthiness: `undefined`, `null`, `false`, `0` and `""` are falsy. -/
def truthy : JsVal → Bool
  | .undefined => false
  | .null => false
  | .bool b => b
  | .num n => n != 0
  | .str s => s != ""
  | .arr _ => true
  | .obj _ => true

/-- The operator `a || b` on values already evaluated. -/
def jsOr (a b : JsVal) : JsVal := if truthy a then a else b

/-- Whether a value is `null` or `undefined`. -/
def nullish : JsVal → Bool
  | .undefined => true
  | .null => true
  | _ => false

/-- Property lookup in a list of own properties. -/
def lookupField (key : String) : List (String × JsVal) → JsVal
  | [] => .undefined
  | (k, v) :: rest => if k = key then v else lookupField key rest

/-- The read `v[key]` for a value that is not nullish.  The keys this module
reads (`detail`, `message`, `access`, `refresh`, `username`, `email`, `role`,
`user`) are properties of no primitive wrapper or array, so only an object can
answer with something other than `undefined`. -/
def propOf (v : JsVal) (key : String) : JsVal :=
  match v with
  | .obj fields => lookupField key fields
  | _ => .undefined

/-- The read `v.key`: a `TypeError` on `null` and `undefined`. -/
def getProp (v : JsVal) (key : String) : Except JsError JsVal :=
  if nullish v then .error ⟨"TypeError", "Cannot read property " ++ key⟩
  else .ok (propOf v key)

/-- The read `v?.key`. -/
def optChain (v : JsVal) (key : String) : JsVal :=
  if nullish v then .undefined else propOf v key

/-- Assignment `o[key] = v` on a property list: an existing key keeps its place
and takes the new value, a new key goes last. -/
def setField {α : Type} (key : String) (v : α) : List (String × α) → List (String × α)
  | [] => [(key, v)]
  | (k, old) :: rest => if k = key then (k, v) :: rest else (k, old) :: setField key v rest

/-- Pairs a list with the decimal indices of its elements, from `i` on. -/
def indexed (i : Nat) : List JsVal → List (String × JsVal)
  | [] => []
  | v :: rest => (toString i, v) :: indexed (i + 1) rest

/-- The own enumerable properties that the spread `...v` copies. -/
def ownEntries : JsVal → List (String × JsVal)
  | .obj fields => fields
  | .arr items => indexed 0 items
  | .str s => indexed 0 (s.data.map fun c => JsVal.str (String.singleton c))
  | _ => []

/-- The spread `{...base, ...v}` on property lists. -/
def spreadInto (base : List (String × JsVal)) (v : JsVal) : List (String × JsVal) :=
  (ownEntries v).foldl (fun acc kv => setField kv.1 kv.2 acc) base

mutual
/-- The conversion `String(v)`, as `new Error(v)` applies it to its argument. -/
def toJsString : JsVal → String
  | .undefined => "undefined"
  | .null => "null"
  | .bool b => if b then "true" else "false"
  | .num n => toString n
  | .str s => s
  | .arr items => joinItems items
  | .obj _ => "[object Object]"
/-- The text of `Array.prototype.join` with its default separator. -/
def joinItems : List JsVal → String
  | [] => ""
  | [v] => if nullish v then "" else toJsString v
  | v :: rest => (if nullish v then "" else toJsString v) ++ "," ++ joinItems rest
end

/-- The call `new Error(v)` for a value `v` that is not `undefined`. -/
def errorOf (v : JsVal) : JsError := newError (toJsString v)

/-- The test `haystack.includes(needle)` on strings. -/
def includes (haystack needle : String) : Bool :=
  haystack.data.tails.any fun t => needle.data.isPrefixOf t

/-! ## The outside world -/

/-- The three keys under which the module persists the session. -/
inductive Key where
  | accessToken
  | refreshToken
  | user
deriving DecidableEq, Repr

/-- Contents of the durable key-value store.  The two token slots hold the
stored strings; the `user` slot holds the profile `v` whose text
`JSON.stringify(v)` was written there. -/
structure Store where
  accessToken : Option String
  refreshToken : Option String
  user : Option JsVal

/-- A call on the key-value store. -/
inductive StorageOp where
  | getItem (key : Key)
  | setItem (key : Key)
  | removeItem (key : Key)
deriving DecidableEq, Repr

/-- The body handed to `fetch`: none, the text `JSON.stringify(v)` of a value,
or a text supplied by the caller. -/
inductive ReqBody where
  | none
  | json (v : JsVal)
  | raw (s : String)

/-- The `options` argument of `debugFetch` and `fetchWithAuth`; a field that is
`none` is absent from the object. -/
structure FetchOptions where
  method : Option String
  headers : Option (List (String × String))
  body : ReqBody

/-- A request handed to `fetch`. -/
structure Request where
  url : String
  options : FetchOptions

/-- An HTTP response as the module observes it: the status, what
`response.json()` settles to, and what `response.text()` settles to when the
module calls it (always after `json()` has been called on the same response). -/
structure Response where
  status : Nat
  json : Except JsError JsVal
  text : Except JsError String

/-- The flag `response.ok`: a status in the range 200 to 299. -/
def Response.ok (r : Response) : Bool := decide (200 ≤ r.status) && decide (r.status ≤ 299)

/-- What a call of `fetch` settles to: a response, or a rejection (the abort
raised by the 15 second timer has the name `AbortError`). -/
inductive FetchOutcome where
  | response (r : Response)
  | failure (e : JsError)

/-- Behaviour of the collaborators: the server answers a request knowing the
requests sent before it; the store may reject its `n`-th call. -/
structure Env where
  server : List Request → Request → FetchOutcome
  storageFault : Nat → StorageOp → Option JsError

/-- The observable world: store contents, the requests handed to `fetch`
(oldest first), and the number of storage calls made so far. -/
structure World where
  store : Store
  trace : List Request
  storageCalls : Nat

/-- An `async` computation: from a world to its outcome and the world after. -/
def Js (α : Type) : Type := World → Except JsError α × World

/-- Resolve with a value. -/
def Js.pure {α : Type} (a : α) : Js α := fun w => (.ok a, w)

/-- Sequencing (`await`): a rejection skips the continuation. -/
def Js.bind {α β : Type} (m : Js α) (f : α → Js β) : Js β := fun w =>
  match m w with
  | (.ok a, w1) => f a w1
  | (.error e, w1) => (.error e, w1)

/-- The statement `throw e`. -/
def Js.throw {α : Type} (e : JsError) : Js α := fun w => (.error e, w)

/-- The statement `try m catch (e) handler`. -/
def Js.tryCatch {α : Type} (m : Js α) (handler : JsError → Js α) : Js α := fun w =>
  match m w with
  | (.ok a, w1) => (.ok a, w1)
  | (.error e, w1) => handler e w1

instance : Monad Js where
  pure := Js.pure
  bind := Js.bind

instance : MonadExcept JsError Js where
  throw := Js.throw
  tryCatch := Js.tryCatch

/-- Awaiting a promise whose outcome is already fixed. -/
def settle {α : Type} (r : Except JsError α) : Js α := fun w => (r, w)

/-- One call on the store: it is counted, and rejects when the environment says so. -/
def storageCall (env : Env) (op : StorageOp) : Js Unit := fun w =>
  let w1 := { w with storageCalls := w.storageCalls + 1 }
  match env.storageFault w.storageCalls op with
  | some e => (.error e, w1)
  | none => (.ok (), w1)

/-- Applies a change to the store contents. -/
def modifyStore (f : Store → Store) : Js Unit := fun w => (.ok (), { w with store := f w.store })

/-- Reads the store contents. -/
def readStore {α : Type} (f : Store → α) : Js α := fun w => (.ok (f w.store), w)

/-- The call `AsyncStorage.getItem('accessToken')`. -/
def getItemAccess (env : Env) : Js (Option String) := do
  storageCall env (.getItem .accessToken)
  readStore (·.accessToken)

/-- The call `AsyncStorage.getItem('refreshToken')`. -/
def getItemRefresh (env : Env) : Js (Option String) := do
  storageCall env (.getItem .refreshToken)
  readStore (·.refreshToken)

/-- The call `AsyncStorage.getItem('user')`: the profile whose text is stored. -/
def getItemUser (env : Env) : Js (Option JsVal) := do
  storageCall env (.getItem .user)
  readStore (·.user)

/-- The rejection of `AsyncStorage.setItem` for a value that is not a string. -/
def notAString : JsError := newError "[AsyncStorage] The value is not a string"

/-- The call `AsyncStorage.setItem('accessToken', v)`; the store keeps strings only. -/
def setItemAccess (env : Env) (v : JsVal) : Js Unit := do
  storageCall env (.setItem .accessToken)
  match v with
  | .str s => modifyStore fun st => { st with accessToken := some s }
  | _ => throw notAString

/-- The call `AsyncStorage.setItem('refreshToken', v)`; the store keeps strings only. -/
def setItemRefresh (env : Env) (v : JsVal) : Js Unit := do
  storageCall env (.setItem .refreshToken)
  match v with
  | .str s => modifyStore fun st => { st with refreshToken := some s }
  | _ => throw notAString

/-- The call `AsyncStorage.setItem('user', JSON.stringify(v))`;
`JSON.stringify(undefined)` is not a string. -/
def setItemUser (env : Env) (v : JsVal) : Js Unit := do
  storageCall env (.setItem .user)
  match v with
  | .undefined => throw notAString
  | _ => modifyStore fun st => { st with user := some v }

/-- Contents after deleting one key. -/
def Store.remove (st : Store) : Key → Store
  | .accessToken => { st with accessToken := none }
  | .refreshToken => { st with refreshToken := none }
  | .user => { st with user := none }

/-- The call `AsyncStorage.removeItem(key)`. -/
def removeItem (env : Env) (key : Key) : Js Unit := do
  storageCall env (.removeItem key)
  modifyStore fun st => st.remove key

/-- The call `fetch(url, options)`: the request joins the trace and the server
decides its outcome from the requests sent before. -/
def fetch (env : Env) (url : String) (options : FetchOptions) : Js Response := fun w =>
  let req : Request := ⟨url, options⟩
  let w1 := { w with trace := w.trace ++ [req] }
  match env.server w.trace req with
  | .response r => (.ok r, w1)
  | .failure e => (.error e, w1)

/-! ## The module `src/api/config.js` -/

/-- The constant `API_URL`. -/
def API_URL : String := "http://10.101.230.98:8000/api"

/-- The error that the `catch` block of `debugFetch` throws in place of a
rejection of `fetch`. -/
def networkError (error : JsError) : JsError :=
  if error.name = "AbortError" then
    newError "Request timeout - server not responding. Check if Django is running."
  else if includes error.message "Network request failed" then
    newError ("Cannot connect to server. Check: 1) Django is running, " ++
      "2) Correct IP address, 3) Same WiFi network")
  else
    newError ("Network error: " ++ error.message)

/-- The function `debugFetch`: `fetch` under a 15 second abort timer, a
rejection being rewritten into one of three errors. -/
def debugFetch (env : Env) (url : String) (options : FetchOptions) : Js Response := do
  try
    let response ← fetch env url options
    pure response
  catch error =>
    throw (networkError error)

/-- The function `testBackendConnection`: an `OPTIONS` probe of the login endpoint. -/
def testBackendConnection (env : Env) : Js Bool := do
  try
    let response ← debugFetch env (API_URL ++ "/accounts/login/")
      { method := some "OPTIONS", headers := none, body := .none }
    pure response.ok
  catch _ =>
    pure false

/-- The function `storeToken`. -/
def storeToken (env : Env) (accessToken refreshToken : JsVal) : Js Unit := do
  try
    setItemAccess env accessToken
    setItemRefresh env refreshToken
  catch _ =>
    pure ()

/-- The function `getToken`; `none` is `null`. -/
def getToken (env : Env) : Js (Option String) := do
  try
    getItemAccess env
  catch _ =>
    pure none

/-- The function `getRefreshToken`; `none` is `null`. -/
def getRefreshToken (env : Env) : Js (Option String) := do
  try
    getItemRefresh env
  catch _ =>
    pure none

/-- The function `clearTokens`. -/
def clearTokens (env : Env) : Js Unit := do
  try
    removeItem env .accessToken
    removeItem env .refreshToken
    removeItem env .user
  catch _ =>
    pure ()

mutual
/-- The value `JSON.parse(JSON.stringify(v))` for a value `v` other than
`undefined`: a property whose value is `undefined` is dropped, an array element
that is `undefined` becomes `null`. -/
def reparse : JsVal → JsVal
  | .arr items => .arr (reparseItems items)
  | .obj fields => .obj (reparseFields fields)
  | v => v
/-- The elements of an array after the round trip through JSON text. -/
def reparseItems : List JsVal → List JsVal
  | [] => []
  | .undefined :: rest => .null :: reparseItems rest
  | v :: rest => reparse v :: reparseItems rest
/-- The properties of an object after the round trip through JSON text. -/
def reparseFields : List (String × JsVal) → List (String × JsVal)
  | [] => []
  | (_, .undefined) :: rest => reparseFields rest
  | (k, v) :: rest => (k, reparse v) :: reparseFields rest
end

mutual
/-- Whether no `undefined` occurs anywhere in a value, as in a value that came
out of `JSON.parse`. -/
def defined : JsVal → Bool
  | .undefined => false
  | .arr items => definedItems items
  | .obj fields => definedFields fields
  | _ => true
/-- Whether no `undefined` occurs in the elements of an array. -/
def definedItems : List JsVal → Bool
  | [] => true
  | v :: rest => defined v && definedItems rest
/-- Whether no `undefined` occurs in the properties of an object. -/
def definedFields : List (String × JsVal) → Bool
  | [] => true
  | (_, v) :: rest => defined v && definedFields rest
end

/-- The function `storeUser`. -/
def storeUser (env : Env) (user : JsVal) : Js Unit := do
  try
    setItemUser env user
  catch _ =>
    pure ()

/-- The function `getUser`: the stored text is never empty, so a filled slot is
parsed; an empty slot gives `null`. -/
def getUser (env : Env) : Js JsVal := do
  try
    let user ← getItemUser env
    match user with
    | some v => pure (reparse v)
    | none => pure .null
  catch _ =>
    pure .null

/-- Truthiness of a string read from the store (`null` and `""` are falsy). -/
def present (token : Option String) : Bool :=
  match token with
  | some s => s != ""
  | none => false

/-- The options of the two JSON `POST` requests of the module. -/
def postJson (body : JsVal) : FetchOptions :=
  { method := some "POST", headers := some [("Content-Type", "application/json")],
    body := .json body }

/-- The error branch of `loginUser`: the message taken from a response that is
not `ok`. -/
def loginErrorMessage (response : Response) : Js JsVal := do
  try
    let errorData ← settle response.json
    let detail ← settle (getProp errorData "detail")
    if truthy detail then
      pure detail
    else
      let message ← settle (getProp errorData "message")
      pure (jsOr message (.str "Login failed"))
  catch _ =>
    let errorText ← settle response.text
    pure (.str ("Server error: " ++ toString response.status ++ " - " ++ errorText))

/-- The function `loginUser`. -/
def loginUser (env : Env) (username password : String) : Js JsVal := do
  try
    let isConnected ← testBackendConnection env
    if !isConnected then
      throw (newError "Cannot connect to server. Please check your connection and try again.")
    let response ← debugFetch env (API_URL ++ "/accounts/login/")
      (postJson (.obj [("username", .str username), ("password", .str password)]))
    if !response.ok then
      let errorMessage ← loginErrorMessage response
      throw (errorOf errorMessage)
    let data ← settle response.json
    let _ ← settle (getProp data "username")
    let access ← settle (getProp data "access")
    if truthy access && truthy (propOf data "refresh") then
      storeToken env access (propOf data "refresh")
    let user := propOf data "user"
    let userData := JsVal.obj (spreadInto
      [("username", jsOr (propOf data "username") (optChain user "username")),
       ("email", jsOr (propOf data "email") (optChain user "email")),
       ("role", jsOr (jsOr (propOf data "role") (optChain user "role")) (.str "student"))]
      user)
    storeUser env userData
    pure (.obj (setField "user" userData (ownEntries data)))
  catch error =>
    throw error

/-- The expression `Array.isArray(v) ? v[0] : v`. -/
def firstMessage : JsVal → JsVal
  | .arr [] => .undefined
  | .arr (x :: _) => x
  | v => v

/-- The call `text.substring(0, n)`, counted in characters. -/
def substringTo (text : String) (n : Nat) : String := String.mk (text.data.take n)

/-- The `try` block of the error branch of `registerUser`: it parses the body
and throws the first error that the body gives rise to. -/
def registerErrorBody (response : Response) : Js Unit := do
  let errorData ← settle response.json
  let username ← settle (getProp errorData "username")
  if truthy username then
    throw (newError ("Username: " ++ toJsString (firstMessage username)))
  let email ← settle (getProp errorData "email")
  if truthy email then
    throw (newError ("Email: " ++ toJsString (firstMessage email)))
  let password ← settle (getProp errorData "password")
  if truthy password then
    throw (newError ("Password: " ++ toJsString (firstMessage password)))
  let role ← settle (getProp errorData "role")
  if truthy role then
    throw (newError ("Role: " ++ toJsString (firstMessage role)))
  let detail ← settle (getProp errorData "detail")
  if truthy detail then
    throw (errorOf detail)
  let message ← settle (getProp errorData "message")
  if truthy message then
    throw (errorOf message)
  throw (newError "Registration failed. Please check your information and try again.")

/-- The error branch of `registerUser`, for a response that is not `ok`.  Every
error the model throws is an instance of `Error`, so the test of the `catch`
block comes down to the colon in the message. -/
def registerError (response : Response) : Js Unit := do
  try
    registerErrorBody response
  catch parseError =>
    if includes parseError.message ":" then
      throw parseError
    let errorText ← settle response.text
    throw (newError ("Server error: " ++ toString response.status ++ " - " ++
      substringTo errorText 100))

/-- The function `registerUser`. -/
def registerUser (env : Env) (userData : JsVal) : Js JsVal := do
  try
    let _ ← settle (getProp userData "username")
    let isConnected ← testBackendConnection env
    if !isConnected then
      throw (newError "Cannot connect to server. Please check your connection and try again.")
    let registrationData := JsVal.obj
      [("username", propOf userData "username"),
       ("email", propOf userData "email"),
       ("password", propOf userData "password"),
       ("role", jsOr (propOf userData "role") (.str "student"))]
    let response ← debugFetch env (API_URL ++ "/accounts/register/") (postJson registrationData)
    if !response.ok then
      registerError response
    let data ← settle response.json
    pure data
  catch error =>
    throw error

/-- The function `refreshAccessToken`. -/
def refreshAccessToken (env : Env) : Js JsVal := do
  try
    let refreshToken ← getRefreshToken env
    if !present refreshToken then
      throw (newError "No refresh token available")
    let response ← debugFetch env (API_URL ++ "/token/refresh/")
      (postJson (.obj [("refresh", .str (refreshToken.getD ""))]))
    if !response.ok then
      throw (newError "Token refresh failed")
    let data ← settle response.json
    let access ← settle (getProp data "access")
    setItemAccess env access
    pure access
  catch error =>
    clearTokens env
    throw error

/-- The `config` object that `fetchWithAuth` builds: the caller's options with
the headers replaced by `Content-Type`, `Authorization` and then the caller's
own headers spread over them. -/
def authConfig (options : FetchOptions) (token : String) : FetchOptions :=
  { options with
    headers := some ((options.headers.getD []).foldl (fun acc kv => setField kv.1 kv.2 acc)
      [("Content-Type", "application/json"), ("Authorization", "Bearer " ++ token)]) }

/-- The assignment `config.headers['Authorization'] = value`. -/
def setAuthorization (config : FetchOptions) (value : String) : FetchOptions :=
  { config with headers := some (setField "Authorization" value (config.headers.getD [])) }

/-- The refresh branch of `fetchWithAuth`, taken on a 401: refresh, then send
the request once more with the new token; any error in it is replaced. -/
def refreshAndRetry (env : Env) (endpoint : String) (config : FetchOptions) : Js Response := do
  try
    let token ← refreshAccessToken env
    let config := setAuthorization config ("Bearer " ++ toJsString token)
    let response ← debugFetch env (API_URL ++ endpoint) config
    pure response
  catch _ =>
    throw (newError "Session expired. Please login again.")

/-- The tail of `fetchWithAuth`: the parsed body of an `ok` response, an error
built from the body otherwise. -/
def finish (response : Response) : Js JsVal := do
  if !response.ok then
    let error ← settle response.json
    let detail ← settle (getProp error "detail")
    if truthy detail then
      throw (errorOf detail)
    let message ← settle (getProp error "message")
    throw (errorOf (jsOr message (.str "Request failed")))
  settle response.json

/-- The function `fetchWithAuth`. -/
def fetchWithAuth (env : Env) (endpoint : String) (options : FetchOptions) : Js JsVal := do
  let token ← getToken env
  if !present token then
    throw (newError "No authentication token")
  let config := authConfig options (token.getD "")
  let first ← debugFetch env (API_URL ++ endpoint) config
  let response ← if first.status = 401 then refreshAndRetry env endpoint config else pure first
  finish response

/-- The function `logoutUser`. -/
def logoutUser (env : Env) : Js Unit := do
  try
    clearTokens env
  catch _ =>
    pure ()

/-! ## The screen `src/screens/SemesterRegistrationScreen.js` -/

/-- A course of the selection.  A number that `parseInt` could not read (`NaN`)
is `none`. -/
structure Course where
  code : String
  name : String
  credits : Option Int

/-- The state `customCourse`: the three text inputs of the custom-course form. -/
structure CustomCourse where
  code : String
  name : String
  credits : String

/-- The state of the screen that the course handlers read and write, with the
alerts shown so far (title and message, oldest first). -/
structure Selection where
  selectedCourses : List Course
  customCourse : CustomCourse
  alerts : List (String × String)

/-- The state on mount: `useState([])` and the empty custom-course form. -/
def Selection.initial : Selection := ⟨[], ⟨"", "", ""⟩, []⟩

/-- The handler `toggleCourse`. -/
def toggleCourse (st : Selection) (course : Course) : Selection :=
  match st.selectedCourses.find? (fun c => c.code == course.code) with
  | some _ =>
    { st with selectedCourses := st.selectedCourses.filter (fun c => c.code != course.code) }
  | none => { st with selectedCourses := st.selectedCourses ++ [course] }

/-- The handler `addCustomCourse`; the built-in `parseInt` is a parameter. -/
def addCustomCourse (parseInt : String → Option Int) (st : Selection) : Selection :=
  if st.customCourse.code = "" ∨ st.customCourse.name = "" ∨ st.customCourse.credits = "" then
    { st with alerts := st.alerts ++ [("Error", "Please fill in all course details")] }
  else
    match st.selectedCourses.find? (fun c => c.code == st.customCourse.code) with
    | some _ => { st with alerts := st.alerts ++ [("Error", "Course already added")] }
    | none =>
      { selectedCourses := st.selectedCourses ++
          [⟨st.customCourse.code, st.customCourse.name, parseInt st.customCourse.credits⟩],
        customCourse := ⟨"", "", ""⟩,
        alerts := st.alerts ++ [("Success", "Course added to your selection")] }

/-- An event on the screen: a press on a course, an edit of one text input of
the custom-course form, or a press on the add button. -/
inductive SelectionEvent where
  | toggle (course : Course)
  | typeCode (value : String)
  | typeName (value : String)
  | typeCredits (value : String)
  | add

/-- The state after one event. -/
def SelectionEvent.apply (parseInt : String → Option Int) (st : Selection) :
    SelectionEvent → Selection
  | .toggle course => toggleCourse st course
  | .typeCode value => { st with customCourse := { st.customCourse with code := value } }
  | .typeName value => { st with customCourse := { st.customCourse with name := value } }
  | .typeCredits value => { st with customCourse := { st.customCourse with credits := value } }
  | .add => addCustomCourse parseInt st

/-- The state after a sequence of events, from the state on mount. -/
def selectionAfter (parseInt : String → Option Int) (events : List SelectionEvent) : Selection :=
  events.foldl (SelectionEvent.apply parseInt) Selection.initial

/-- The codes of the selected courses, in order. -/
def Selection.codes (st : Selection) : List String := st.selectedCourses.map (·.code)

/-! ## The screen `src/screens/RegisterScreen.js` -/

/-- Regular expressions over characters, as far as `emailRegex` needs them:
a class of characters, concatenation and repetition, together with the
expressions that the matcher builds on its way. -/
inductive Regex where
  | never
  | empty
  | one (accepts : Char → Bool)
  | seq (a b : Regex)
  | either (a b : Regex)
  | star (a : Regex)

/-- The quantifier `a+`. -/
def Regex.plus (a : Regex) : Regex := .seq a (.star a)

/-- Whether an expression matches the empty string. -/
def Regex.nullable : Regex → Bool
  | .never => false
  | .empty => true
  | .one _ => false
  | .seq a b => a.nullable && b.nullable
  | .either a b => a.nullable || b.nullable
  | .star _ => true

/-- The expression for what may follow the character `c`. -/
def Regex.deriv (c : Char) : Regex → Regex
  | .never => .never
  | .empty => .never
  | .one accepts => if accepts c then .empty else .never
  | .seq a b =>
    if a.nullable then .either (.seq (a.deriv c) b) (b.deriv c) else .seq (a.deriv c) b
  | .either a b => .either (a.deriv c) (b.deriv c)
  | .star a => .seq (a.deriv c) (.star a)

/-- Whether an expression matches a whole list of characters. -/
def Regex.matchesAll (r : Regex) : List Char → Bool
  | [] => r.nullable
  | c :: rest => (r.deriv c).matchesAll rest

/-- The call `regex.test(text)` for an expression anchored as `^...$`. -/
def Regex.test (r : Regex) (text : String) : Bool := r.matchesAll text.data

/-- The class `\s` of JavaScript: the white space and line terminator characters. -/
def isSpace (c : Char) : Bool :=
  [0x9, 0xA, 0xB, 0xC, 0xD, 0x20, 0xA0, 0x1680, 0x2028, 0x2029, 0x202F, 0x205F, 0x3000,
    0xFEFF].contains c.toNat || (decide (0x2000 ≤ c.toNat) && decide (c.toNat ≤ 0x200A))

/-- The class `[^\s@]`.  The expression has no `u` flag and runs over UTF-16 code
units; a character above U+FFFF is two surrogate units, each of which is in the
class, so that a run of the class is a run of such characters. -/
def plainChar (c : Char) : Bool := !(isSpace c || c == '@')

/-- The constant `emailRegex`, the expression `^[^\s@]+@[^\s@]+\.[^\s@]+$`. -/
def emailRegex : Regex :=
  .seq (Regex.plus (.one plainChar))
    (.seq (.one (· == '@'))
      (.seq (Regex.plus (.one plainChar))
        (.seq (.one (· == '.')) (Regex.plus (.one plainChar)))))

/-- The property `text.length`: the number of UTF-16 code units. -/
def jsLength (text : String) : Nat :=
  text.data.foldl (fun n c => n + (if c.toNat < 0x10000 then 1 else 2)) 0

/-- The state `formData` of the registration form. -/
structure FormData where
  username : String
  email : String
  password : String
  confirmPassword : String
  role : String

/-- The function `validateForm`: the value it returns and the message of the
alert it shows, if any. -/
def validateForm (formData : FormData) : Bool × Option String :=
  if formData.username = "" ∨ formData.email = "" ∨ formData.password = "" then
    (false, some "Please fill in all required fields")
  else if formData.password ≠ formData.confirmPassword then
    (false, some "Passwords do not match")
  else if jsLength formData.password < 6 then
    (false, some "Password must be at least 6 characters long")
  else if !emailRegex.test formData.email then
    (false, some "Please enter a valid email address")
  else
    (true, none)

/-- What an expression matches, read off its structure. -/
def Regex.Accepts : Regex → List Char → Prop
  | .never, _ => False
  | .empty, s => s = []
  | .one accepts, s => ∃ c, accepts c = true ∧ s = [c]
  | .seq a b, s => ∃ t u, s = t ++ u ∧ a.Accepts t ∧ b.Accepts u
  | .either a b, s => a.Accepts s ∨ b.Accepts s
  | .star a, s => ∃ parts : List (List Char), s = parts.flatten ∧
      ∀ t ∈ parts, t ≠ [] ∧ a.Accepts t

/-- A white space character: tab, line feed, vertical tab, form feed, carriage
return, space, no-break space, the Ogham space mark, the spaces U+2000 to
U+200A, the line and the paragraph separator, the narrow and the medium
mathematical space, the ideographic space and the byte order mark. -/
def WhiteSpace (c : Char) : Prop :=
  c.toNat = 0x9 ∨ c.toNat = 0xA ∨ c.toNat = 0xB ∨ c.toNat = 0xC ∨ c.toNat = 0xD ∨
  c.toNat = 0x20 ∨ c.toNat = 0xA0 ∨ c.toNat = 0x1680 ∨
  (0x2000 ≤ c.toNat ∧ c.toNat ≤ 0x200A) ∨ c.toNat = 0x2028 ∨ c.toNat = 0x2029 ∨
  c.toNat = 0x202F ∨ c.toNat = 0x205F ∨ c.toNat = 0x3000 ∨ c.toNat = 0xFEFF

/-- The shape `local@domain.tld`: three non-empty runs of characters that are
neither white space nor `@`, joined by `@` and by a dot. -/
def emailShape (text : String) : Prop :=
  ∃ name domain tld : List Char,
    name ≠ [] ∧ domain ≠ [] ∧ tld ≠ [] ∧
    (∀ c ∈ name, ¬ WhiteSpace c ∧ c ≠ '@') ∧ (∀ c ∈ domain, ¬ WhiteSpace c ∧ c ≠ '@') ∧
    (∀ c ∈ tld, ¬ WhiteSpace c ∧ c ≠ '@') ∧
    text.data = name ++ '@' :: (domain ++ '.' :: tld)

/-- The number of characters of a text that lie above U+FFFF; each of them takes
two UTF-16 code units, every other character takes one. -/
def astralCount (text : String) : Nat :=
  (text.data.filter (fun c => decide (0xFFFF < c.toNat))).length

/-! ## Statement vocabulary -/

/-- The world that `clearTokens` leaves behind. -/
def clearedWorld (env : Env) (w : World) : World := (clearTokens env w).2

/-- The profile `userData` that `loginUser` builds from the parsed response. -/
def profileOf (data : JsVal) : JsVal :=
  .obj (spreadInto
    [("username", jsOr (propOf data "username") (optChain (propOf data "user") "username")),
     ("email", jsOr (propOf data "email") (optChain (propOf data "user") "email")),
     ("role", jsOr (jsOr (propOf data "role") (optChain (propOf data "user") "role"))
        (.str "student"))]
    (propOf data "user"))

/-- The envelope that `loginUser` returns: the response with `user` set to the profile. -/
def envelopeOf (data : JsVal) : JsVal :=
  .obj (setField "user" (profileOf data) (ownEntries data))

/-- The world that `storeToken` leaves behind. -/
def afterStoreToken (env : Env) (accessToken refreshToken : JsVal) (w : World) : World :=
  (storeToken env accessToken refreshToken w).2

/-- The world that `storeUser` leaves behind. -/
def afterStoreUser (env : Env) (user : JsVal) (w : World) : World := (storeUser env user w).2

/-- The world after the token step of `loginUser`: `storeToken` runs only for a
truthy top-level pair. -/
def afterTokenStep (env : Env) (data : JsVal) (w : World) : World :=
  if truthy (propOf data "access") && truthy (propOf data "refresh") then
    afterStoreToken env (propOf data "access") (propOf data "refresh") w
  else w

/-- The `POST` of `registerUser` for the form `userData`. -/
def registerRequest (userData : JsVal) : Request :=
  ⟨API_URL ++ "/accounts/register/",
    postJson (.obj
      [("username", propOf userData "username"),
       ("email", propOf userData "email"),
       ("password", propOf userData "password"),
       ("role", jsOr (propOf userData "role") (.str "student"))])⟩

/-- The error that the `try` block of the error branch of `registerUser` throws
for a body that parsed to an object with the properties `fields`. -/
def registrationError (fields : List (String × JsVal)) : JsError :=
  if truthy (lookupField "username" fields) then
    newError ("Username: " ++ toJsString (firstMessage (lookupField "username" fields)))
  else if truthy (lookupField "email" fields) then
    newError ("Email: " ++ toJsString (firstMessage (lookupField "email" fields)))
  else if truthy (lookupField "password" fields) then
    newError ("Password: " ++ toJsString (firstMessage (lookupField "password" fields)))
  else if truthy (lookupField "role" fields) then
    newError ("Role: " ++ toJsString (firstMessage (lookupField "role" fields)))
  else if truthy (lookupField "detail" fields) then
    errorOf (lookupField "detail" fields)
  else if truthy (lookupField "message" fields) then
    errorOf (lookupField "message" fields)
  else
    newError "Registration failed. Please check your information and try again."

/-- What the `catch` block of the error branch of `registerUser` makes of an
error thrown in the `try` block: the error itself when its message has a colon,
otherwise an error built from the status and the body text (or the rejection of
`response.text()`). -/
def surfaced (response : Response) (e : JsError) : JsError :=
  if includes e.message ":" then e
  else
    match response.text with
    | .ok errorText =>
      newError ("Server error: " ++ toString response.status ++ " - " ++
        substringTo errorText 100)
    | .error rejection => rejection

/-- A field value that holds the message `s`: the non-empty string `s` itself,
or an array whose first element is the string `s`. -/
def carries (v : JsVal) (s : String) : Prop :=
  (v = .str s ∧ s ≠ "") ∨ ∃ rest, v = .arr (.str s :: rest)

/-- A session operation, as the screens invoke it. -/
inductive Operation where
  | login (username password : String)
  | register (userData : JsVal)
  | refresh
  | request (endpoint : String) (options : FetchOptions)
  | logout

/-- The world after one session operation, whatever its outcome. -/
def Operation.run (env : Env) : Operation → World → World
  | .login username password, w => (loginUser env username password w).2
  | .register userData, w => (registerUser env userData w).2
  | .refresh, w => (refreshAccessToken env w).2
  | .request endpoint options, w => (fetchWithAuth env endpoint options w).2
  | .logout, w => (logoutUser env w).2

/-- The world after a sequence of session operations, one after the other. -/
def runAll (env : Env) (ops : List Operation) (w : World) : World :=
  ops.foldl (fun w op => op.run env w) w

/-- Both token slots are present, or neither is. -/
def Store.paired (st : Store) : Prop := st.accessToken.isSome = st.refreshToken.isSome

/-- A computation that leaves the store contents as they were, whatever its outcome. -/
def keepsStore {α : Type} (m : Js α) : Prop := ∀ w, (m w).2.store = w.store

/-- The three slots of the store are all empty. -/
def Store.cleared (st : Store) : Prop :=
  st.accessToken = none ∧ st.refreshToken = none ∧ st.user = none

/-- No call on the store rejects. -/
def Env.reliable (env : Env) : Prop := ∀ n op, env.storageFault n op = none

/-- No delete on the store rejects. -/
def Env.deletesSucceed (env : Env) : Prop := ∀ n key, env.storageFault n (.removeItem key) = none

/-- The error `AuthRequiredError`. -/
def authRequiredError : JsError := newError "No authentication token"

/-- The error `SessionExpiredError`. -/
def sessionExpiredError : JsError := newError "Session expired. Please login again."

/-- The error `NoRefreshTokenError`. -/
def noRefreshTokenError : JsError := newError "No refresh token available"

/-- The error `RefreshRejectedError`. -/
def refreshRejectedError : JsError := newError "Token refresh failed"

/-- The error `ConnectionError`. -/
def connectionError : JsError :=
  newError "Cannot connect to server. Please check your connection and try again."

/-- The connectivity probe: `OPTIONS` on the login endpoint. -/
def probeRequest : Request :=
  ⟨API_URL ++ "/accounts/login/", { method := some "OPTIONS", headers := none, body := .none }⟩

/-- The credentials `POST` of `loginUser`. -/
def loginRequest (username password : String) : Request :=
  ⟨API_URL ++ "/accounts/login/",
    postJson (.obj [("username", .str username), ("password", .str password)])⟩

/-- No login of this server hands `storeToken` an access token that the store
takes together with a refresh token that it refuses: whenever the probe is
answered 2xx and the login sent after it is answered 2xx with a body whose
`access` is a non-empty string and whose `refresh` is truthy, that `refresh` is
a string. -/
def Env.pairStorable (env : Env) : Prop :=
  ∀ (sent : List Request) (username password : String) (p r : Response) (data : JsVal)
    (a : String),
    env.server sent probeRequest = .response p → p.ok = true →
    env.server (sent ++ [probeRequest]) (loginRequest username password) = .response r →
    r.ok = true → r.json = .ok data → propOf data "access" = .str a → a ≠ "" →
    truthy (propOf data "refresh") = true → ∃ t, propOf data "refresh" = .str t

/-- The `POST` of the refresh protocol for the refresh token `r`. -/
def refreshRequest (r : String) : Request :=
  ⟨API_URL ++ "/token/refresh/", postJson (.obj [("refresh", .str r)])⟩

/-- The first guarded request of `fetchWithAuth` for the stored access token `t`. -/
def resourceRequest (endpoint : String) (options : FetchOptions) (t : String) : Request :=
  ⟨API_URL ++ endpoint, authConfig options t⟩

/-- The retried guarded request, for the stored token `t` and the refreshed token `a`. -/
def retryRequest (endpoint : String) (options : FetchOptions) (t : String) (a : JsVal) : Request :=
  ⟨API_URL ++ endpoint, setAuthorization (authConfig options t) ("Bearer " ++ toJsString a)⟩

/-- Whether a request goes to the token-refresh endpoint. -/
def isRefreshCall (q : Request) : Bool := q.url == API_URL ++ "/token/refresh/"

/-- Whether a request goes to the guarded resource `endpoint`. -/
def isResourceCall (endpoint : String) (q : Request) : Bool := q.url == API_URL ++ endpoint

/-! ## Sample collaborators -/

/-- A store on which no call rejects. -/
def noFault : Nat → StorageOp → Option JsError := fun _ _ => none

/-- Options with no field set. -/
def plainOptions : FetchOptions := { method := none, headers := none, body := .none }

/-- A logged-in world: both tokens and a cached profile, nothing sent yet. -/
def loggedIn : World :=
  ⟨⟨some "old", some "r1", some (.obj [("username", .str "alice")])⟩, [], 0⟩

/-- A world with an empty store, nothing sent yet. -/
def loggedOut : World := ⟨⟨none, none, none⟩, [], 0⟩

/-- A response with a JSON body. -/
def jsonResponse (status : Nat) (v : JsVal) : Response :=
  ⟨status, .ok v, .error ⟨"TypeError", "Already read"⟩⟩

/-- The 401 that an expired access token earns. -/
def expired : Response := jsonResponse 401 (.obj [("detail", .str "Token expired")])

/-- A server that rejects the old access token, grants a refresh, and then
serves the resource. -/
def refreshingServer : List Request → Request → FetchOutcome := fun sent _ =>
  match sent.length with
  | 0 => .response expired
  | 1 => .response (jsonResponse 200 (.obj [("access", .str "new")]))
  | _ => .response (jsonResponse 200 (.obj [("achievements", .num 3)]))

/-- A server that rejects the old access token, grants a refresh, and is then
unreachable. -/
def droppingServer : List Request → Request → FetchOutcome := fun sent _ =>
  match sent.length with
  | 0 => .response expired
  | 1 => .response (jsonResponse 200 (.obj [("access", .str "new")]))
  | _ => .failure ⟨"TypeError", "Network request failed"⟩

/-- A server that answers 401 to every request. -/
def rejectingServer : List Request → Request → FetchOutcome := fun _ _ => .response expired

/-- A server that cannot be reached. -/
def deadServer : List Request → Request → FetchOutcome := fun _ _ =>
  .failure ⟨"TypeError", "Network request failed"⟩

/-- A server that answers the probe and rejects the credentials. -/
def wrongPasswordServer : List Request → Request → FetchOutcome := fun sent _ =>
  match sent.length with
  | 0 => .response (jsonResponse 200 (.obj []))
  | _ => .response (jsonResponse 401 (.obj [("detail", .str "Invalid credentials")]))

/-- A server that answers the probe with 200 and every later request with `r`. -/
def answering (r : Response) : List Request → Request → FetchOutcome := fun sent _ =>
  match sent.length with
  | 0 => .response (jsonResponse 200 (.obj []))
  | _ => .response r

/-- A login response that names the user both at top level and under `user`. -/
def twoShapes : JsVal :=
  .obj [("access", .str "a1"), ("refresh", .str "r2"), ("username", .str "top"),
    ("email", .str "top@example.org"), ("role", .str "admin"),
    ("user", .obj [("username", .str "nested"), ("email", .str "nested@example.org"),
      ("role", .str "student")])]

/-- A login response whose tokens are nested under `user`. -/
def nestedTokens : JsVal :=
  .obj [("user", .obj [("username", .str "alice"), ("access", .str "a1"),
    ("refresh", .str "r2")])]

/-- A login response without tokens. -/
def noTokens : JsVal := .obj [("username", .str "alice"), ("email", .str "alice@example.org")]

/-- A login response with a top-level token pair and a flat profile. -/
def flatLogin : JsVal :=
  .obj [("access", .str "a1"), ("refresh", .str "r2"), ("username", .str "alice"),
    ("email", .str "alice@example.org"), ("role", .str "lecturer")]

/-- A response of status 500 whose body is an HTML error page, not JSON:
`json()` reads the body and rejects with the parse error, and `text()`, called
after it on the body already read, rejects as well. -/
def unparseable : Response :=
  ⟨500, .error ⟨"SyntaxError", "JSON Parse error: Unexpected token: <"⟩,
    .error ⟨"TypeError", "Already read"⟩⟩

/-- A login response whose `refresh` is a number. -/
def numberRefresh : JsVal := .obj [("access", .str "a1"), ("refresh", .num 7)]

/-- A password of three characters, each the emoji U+1F600. -/
def threeEmoji : String := String.mk (List.replicate 3 (Char.ofNat 0x1F600))

/-- A registration error body whose `username` is present without an error. -/
def nullUsername : JsVal :=
  .obj [("username", .null), ("email", .arr [.str "Email already exists"])]

/-- The raw text of the body whose only key is `detail`. -/
def takenText : String := "\x7b\"detail\": \"Username already taken\"\x7d"

/-- A 400 whose body carries only a `detail` without a colon; `text()` still
gives the raw text. -/
def takenReadable : Response :=
  ⟨400, .ok (.obj [("detail", .str "Username already taken")]), .ok takenText⟩

/-- The same 400 on a platform where the body can be read only once. -/
def takenConsumed : Response :=
  jsonResponse 400 (.obj [("detail", .str "Username already taken")])

/-- A store that rejects every write and serves reads and deletes. -/
def writesFail : Nat → StorageOp → Option JsError := fun _ op =>
  match op with
  | .setItem _ => some (newError "Storage is full")
  | _ => none

/-- Options whose headers bring their own `Authorization` entry. -/
def ownAuthorization : FetchOptions :=
  { method := none, headers := some [("Authorization", "Basic abc")], body := .none }

/-- The fields of a registration form. -/
def formFields : JsVal :=
  .obj [("username", .str "alice"), ("email", .str "alice@example.org"),
    ("password", .str "secret1"), ("role", .str "student")]

/-! ## Running the monad -/

@[simp] theorem bind_run {α β : Type} (m : Js α) (f : α → Js β) (w : World) :
    (m >>= f) w = match m w with
      | (.ok a, w1) => f a w1
      | (.error e, w1) => (.error e, w1) := rfl

@[simp] theorem pure_run {α : Type} (a : α) (w : World) : (pure a : Js α) w = (.ok a, w) := rfl

@[simp] theorem throw_run {α : Type} (e : JsError) (w : World) :
    (throw e : Js α) w = (.error e, w) := rfl

@[simp] theorem tryCatch_run {α : Type} (m : Js α) (h : JsError → Js α) (w : World) :
    (tryCatch m h) w = match m w with
      | (.ok a, w1) => (.ok a, w1)
      | (.error e, w1) => h e w1 := rfl

@[simp] theorem settle_run {α : Type} (r : Except JsError α) (w : World) :
    settle r w = (r, w) := rfl

theorem getToken_run (env : Env) (w : World) :
    getToken env w =
      (.ok (match env.storageFault w.storageCalls (.getItem .accessToken) with
            | some _ => none
            | none => w.store.accessToken),
       { w with storageCalls := w.storageCalls + 1 }) := by
  simp only [getToken, getItemAccess, storageCall, readStore, bind_run, pure_run, tryCatch_run,
    tryCatchThe]
  cases env.storageFault w.storageCalls (.getItem .accessToken) <;> rfl

theorem getRefreshToken_run (env : Env) (w : World) :
    getRefreshToken env w =
      (.ok (match env.storageFault w.storageCalls (.getItem .refreshToken) with
            | some _ => none
            | none => w.store.refreshToken),
       { w with storageCalls := w.storageCalls + 1 }) := by
  simp only [getRefreshToken, getItemRefresh, storageCall, readStore, bind_run, pure_run,
    tryCatch_run, tryCatchThe]
  cases env.storageFault w.storageCalls (.getItem .refreshToken) <;> rfl

theorem debugFetch_run (env : Env) (url : String) (options : FetchOptions) (w : World) :
    debugFetch env url options w =
      (match env.server w.trace ⟨url, options⟩ with
        | .response r => .ok r
        | .failure e => .error (networkError e),
       { w with trace := w.trace ++ [⟨url, options⟩] }) := by
  simp only [debugFetch, fetch, bind_run, pure_run, throw_run, tryCatch_run, tryCatchThe]
  cases env.server w.trace ⟨url, options⟩ <;> rfl

theorem testBackendConnection_run (env : Env) (w : World) :
    testBackendConnection env w =
      (.ok (match env.server w.trace probeRequest with
            | .response r => r.ok
            | .failure _ => false),
       { w with trace := w.trace ++ [probeRequest] }) := by
  simp only [testBackendConnection, debugFetch_run, bind_run, pure_run, tryCatch_run, tryCatchThe,
    probeRequest]
  cases env.server w.trace
    ⟨API_URL ++ "/accounts/login/", { method := some "OPTIONS", headers := none, body := .none }⟩ <;>
    rfl

theorem removeItem_run (env : Env) (key : Key) (w : World) :
    removeItem env key w =
      (match env.storageFault w.storageCalls (.removeItem key) with
        | some e => (.error e, { w with storageCalls := w.storageCalls + 1 })
        | none => (.ok (), { w with store := w.store.remove key,
                                    storageCalls := w.storageCalls + 1 })) := by
  simp only [removeItem, storageCall, modifyStore, bind_run]
  cases env.storageFault w.storageCalls (.removeItem key) <;> rfl

theorem clearTokens_fst (env : Env) (w : World) : (clearTokens env w).1 = .ok () := by
  simp only [clearTokens, removeItem_run, bind_run, pure_run, tryCatch_run, tryCatchThe]
  cases env.storageFault w.storageCalls (.removeItem .accessToken) <;> simp only []
  cases env.storageFault (w.storageCalls + 1) (.removeItem .refreshToken) <;> simp only []
  cases env.storageFault (w.storageCalls + 1 + 1) (.removeItem .user) <;> simp only []

/-- The function `clearTokens` never throws. -/
theorem clearTokens_run (env : Env) (w : World) :
    clearTokens env w = (.ok (), clearedWorld env w) :=
  Prod.ext (clearTokens_fst env w) rfl

/-- The function `clearTokens` sends nothing. -/
theorem clearedWorld_trace (env : Env) (w : World) : (clearedWorld env w).trace = w.trace := by
  simp only [clearedWorld, clearTokens, removeItem_run, bind_run, pure_run, tryCatch_run,
    tryCatchThe]
  cases env.storageFault w.storageCalls (.removeItem .accessToken) <;> simp only []
  cases env.storageFault (w.storageCalls + 1) (.removeItem .refreshToken) <;> simp only []
  cases env.storageFault (w.storageCalls + 1 + 1) (.removeItem .user) <;> simp only []

/-- On a store whose deletes succeed, `clearTokens` empties the three slots. -/
theorem clearedWorld_eq (env : Env) (h : env.deletesSucceed) (w : World) :
    clearedWorld env w = ⟨⟨none, none, none⟩, w.trace, w.storageCalls + 3⟩ := by
  simp only [clearedWorld, clearTokens, removeItem_run, bind_run, pure_run, tryCatch_run,
    tryCatchThe, h _ _, Store.remove]

theorem clearedWorld_cleared (env : Env) (h : env.deletesSucceed) (w : World) :
    (clearedWorld env w).store.cleared := by
  rw [clearedWorld_eq env h w]
  exact ⟨rfl, rfl, rfl⟩

theorem setItemAccess_run (env : Env) (v : JsVal) (w : World) :
    setItemAccess env v w =
      (match env.storageFault w.storageCalls (.setItem .accessToken) with
        | some e => (.error e, { w with storageCalls := w.storageCalls + 1 })
        | none =>
          match v with
          | .str s => (.ok (), ⟨⟨some s, w.store.refreshToken, w.store.user⟩, w.trace,
                                w.storageCalls + 1⟩)
          | _ => (.error notAString, { w with storageCalls := w.storageCalls + 1 })) := by
  simp only [setItemAccess, storageCall, modifyStore, bind_run]
  cases env.storageFault w.storageCalls (.setItem .accessToken) <;> cases v <;> rfl

theorem refreshAccessToken_run (env : Env) (w : World) :
    refreshAccessToken env w =
      (let tok := (match env.storageFault w.storageCalls (.getItem .refreshToken) with
            | some _ => none
            | none => w.store.refreshToken)
       let w1 : World := { w with storageCalls := w.storageCalls + 1 }
       if present tok = false then (.error noRefreshTokenError, clearedWorld env w1)
       else
         let w2 : World := { w1 with trace := w.trace ++ [refreshRequest (tok.getD "")] }
         match env.server w.trace (refreshRequest (tok.getD "")) with
         | .failure e => (.error (networkError e), clearedWorld env w2)
         | .response rr =>
           if rr.ok = false then (.error refreshRejectedError, clearedWorld env w2)
           else
             match rr.json with
             | .error e => (.error e, clearedWorld env w2)
             | .ok data =>
               match getProp data "access" with
               | .error e => (.error e, clearedWorld env w2)
               | .ok access =>
                 match setItemAccess env access w2 with
                 | (.ok _, w3) => (.ok access, w3)
                 | (.error e, w3) => (.error e, clearedWorld env w3)) := by
  simp only [refreshAccessToken, getRefreshToken_run, debugFetch_run, bind_run, pure_run,
    throw_run, tryCatch_run, tryCatchThe, settle_run, clearTokens_run, refreshRequest,
    noRefreshTokenError, refreshRejectedError]
  generalize (match env.storageFault w.storageCalls (.getItem .refreshToken) with
            | some _ => none
            | none => w.store.refreshToken) = tok
  cases hp : present tok
  · simp only [Bool.not_false, if_true, throw_run, bind_run]
  · simp only [Bool.not_true, Bool.false_eq_true, Bool.true_eq_false, if_false, pure_run,
      bind_run, debugFetch_run]
    cases env.server w.trace ⟨API_URL ++ "/token/refresh/",
        postJson (.obj [("refresh", .str (tok.getD ""))])⟩ with
    | failure e => simp only []
    | response rr =>
      simp only []
      cases hok : rr.ok
      · simp only [Bool.not_false, if_true, throw_run, bind_run]
      · simp only [Bool.not_true, Bool.false_eq_true, Bool.true_eq_false, if_false, pure_run,
          bind_run, settle_run]
        cases rr.json with
        | error e => simp only []
        | ok data =>
          simp only []
          cases getProp data "access" with
          | error e => simp only []
          | ok access =>
            simp only []
            cases setItemAccess env access ⟨w.store, w.trace ++ [⟨API_URL ++ "/token/refresh/",
              postJson (.obj [("refresh", .str (tok.getD ""))])⟩], w.storageCalls + 1⟩ with
            | mk r w3 => cases r <;> simp only []

theorem finish_snd (r : Response) (w : World) : (finish r w).2 = w := by
  simp only [finish]
  cases hok : r.ok
  · simp only [Bool.not_false, if_true, bind_run, settle_run]
    cases r.json with
    | error e => rfl
    | ok v =>
      simp only []
      cases getProp v "detail" with
      | error e => rfl
      | ok d =>
        simp only []
        cases hd : truthy d
        · simp only [Bool.false_eq_true, if_false, pure_run, bind_run, settle_run]
          cases getProp v "message" <;> rfl
        · simp only [if_true, throw_run, bind_run]
  · simp only [Bool.not_true, Bool.false_eq_true, if_false, pure_run, bind_run, settle_run]

theorem fetchWithAuth_run (env : Env) (endpoint : String) (options : FetchOptions) (w : World) :
    fetchWithAuth env endpoint options w =
      (let tok := (match env.storageFault w.storageCalls (.getItem .accessToken) with
            | some _ => none
            | none => w.store.accessToken)
       let w1 : World := { w with storageCalls := w.storageCalls + 1 }
       if present tok = false then (.error authRequiredError, w1)
       else
         let w2 : World := { w1 with trace := w.trace ++ [resourceRequest endpoint options (tok.getD "")] }
         match env.server w.trace (resourceRequest endpoint options (tok.getD "")) with
         | .failure e => (.error (networkError e), w2)
         | .response first =>
           if first.status = 401 then
             match refreshAccessToken env w2 with
             | (.error _, w3) => (.error sessionExpiredError, w3)
             | (.ok a, w3) =>
               let w4 : World :=
                 { w3 with trace := w3.trace ++ [retryRequest endpoint options (tok.getD "") a] }
               match env.server w3.trace (retryRequest endpoint options (tok.getD "") a) with
               | .failure _ => (.error sessionExpiredError, w4)
               | .response second => finish second w4
           else finish first w2) := by
  simp only [fetchWithAuth, getToken_run, bind_run, resourceRequest, retryRequest,
    authRequiredError, sessionExpiredError]
  generalize (match env.storageFault w.storageCalls (.getItem .accessToken) with
            | some _ => none
            | none => w.store.accessToken) = tok
  cases hp : present tok
  · simp only [Bool.not_false, if_true, throw_run, bind_run]
  · simp only [Bool.not_true, Bool.false_eq_true, Bool.true_eq_false, if_false, pure_run,
      bind_run, debugFetch_run]
    cases env.server w.trace ⟨API_URL ++ endpoint, authConfig options (tok.getD "")⟩ with
    | failure e => simp only []
    | response first =>
      simp only []
      by_cases h401 : first.status = 401
      · simp only [h401, if_true, refreshAndRetry, bind_run, tryCatch_run, tryCatchThe, pure_run,
          throw_run, debugFetch_run]
        cases refreshAccessToken env ⟨w.store, w.trace ++ [⟨API_URL ++ endpoint,
          authConfig options (tok.getD "")⟩], w.storageCalls + 1⟩ with
        | mk r w3 =>
          cases r with
          | error e => simp only []
          | ok a =>
            simp only []
            cases env.server w3.trace ⟨API_URL ++ endpoint,
              setAuthorization (authConfig options (tok.getD "")) ("Bearer " ++ toJsString a)⟩ with
            | failure e => simp only []
            | response second => simp only []
      · simp only [h401, if_false, pure_run, bind_run]

theorem present_some {t : String} (h : t ≠ "") : present (some t) = true := by
  simp [present, h]

theorem append_left_cancel {p a b : String} (h : p ++ a = p ++ b) : a = b := by
  have h2 := congrArg String.data h
  simp only [String.data_append] at h2
  exact String.ext (List.append_cancel_left h2)

theorem setItemAccess_trace (env : Env) (v : JsVal) (w : World) :
    (setItemAccess env v w).2.trace = w.trace := by
  rw [setItemAccess_run]
  cases env.storageFault w.storageCalls (.setItem .accessToken) <;> cases v <;> rfl

/-- The refresh protocol sends at most one request, and none when it stops at the
missing refresh token. -/
theorem refreshAccessToken_trace (env : Env) (w : World) :
    ((refreshAccessToken env w).1 = .error noRefreshTokenError ∧
      (refreshAccessToken env w).2.trace = w.trace) ∨
    ∃ r, (refreshAccessToken env w).2.trace = w.trace ++ [refreshRequest r] := by
  rw [refreshAccessToken_run]
  generalize (match env.storageFault w.storageCalls (.getItem .refreshToken) with
            | some _ => none
            | none => w.store.refreshToken) = tok
  cases hp : present tok
  · left
    simp only [hp, if_true, clearedWorld_trace, and_self]
  · right
    refine ⟨tok.getD "", ?_⟩
    simp only [hp, Bool.true_eq_false, if_false]
    cases env.server w.trace (refreshRequest (tok.getD "")) with
    | failure e => simp only [clearedWorld_trace]
    | response rr =>
      simp only []
      cases hok : rr.ok
      · simp only [if_true, clearedWorld_trace]
      · simp only [Bool.true_eq_false, if_false]
        cases rr.json with
        | error e => simp only [clearedWorld_trace]
        | ok data =>
          simp only []
          cases getProp data "access" with
          | error e => simp only [clearedWorld_trace]
          | ok access =>
            simp only []
            have ht := setItemAccess_trace env access
              ⟨w.store, w.trace ++ [refreshRequest (tok.getD "")], w.storageCalls + 1⟩
            cases hs : setItemAccess env access
              ⟨w.store, w.trace ++ [refreshRequest (tok.getD "")], w.storageCalls + 1⟩ with
            | mk res w3 =>
              rw [hs] at ht
              cases res with
              | error e => simpa only [clearedWorld_trace] using ht
              | ok u => exact ht

theorem url_ne {endpoint : String} (h : endpoint ≠ "/token/refresh/") :
    (API_URL ++ endpoint == API_URL ++ "/token/refresh/") = false := by
  simp only [beq_eq_false_iff_ne, ne_eq]
  exact fun h2 => h (append_left_cancel h2)

theorem url_ne_symm {endpoint : String} (h : endpoint ≠ "/token/refresh/") :
    (API_URL ++ "/token/refresh/" == API_URL ++ endpoint) = false := by
  simp only [beq_eq_false_iff_ne, ne_eq]
  exact fun h2 => h (append_left_cancel h2).symm

theorem present_none : present none = false := rfl

theorem refreshAccessToken_error_cleared (env : Env) (hdel : env.deletesSucceed) (w : World)
    (e : JsError) (h : (refreshAccessToken env w).1 = .error e) :
    (refreshAccessToken env w).2.store.cleared := by
  revert h
  rw [refreshAccessToken_run]
  generalize (match env.storageFault w.storageCalls (.getItem .refreshToken) with
            | some _ => none
            | none => w.store.refreshToken) = tok
  cases hp : present tok
  · simp only [hp, if_true, clearedWorld_cleared env hdel, implies_true]
  · simp only [hp, Bool.true_eq_false, if_false]
    cases env.server w.trace (refreshRequest (tok.getD "")) with
    | failure e => simp only [clearedWorld_cleared env hdel, implies_true]
    | response rr =>
      simp only []
      cases hok : rr.ok
      · simp only [if_true, clearedWorld_cleared env hdel, implies_true]
      · simp only [Bool.true_eq_false, if_false]
        cases rr.json with
        | error e => simp only [clearedWorld_cleared env hdel, implies_true]
        | ok data =>
          simp only []
          cases getProp data "access" with
          | error e => simp only [clearedWorld_cleared env hdel, implies_true]
          | ok access =>
            simp only []
            cases setItemAccess env access
              ⟨w.store, w.trace ++ [refreshRequest (tok.getD "")], w.storageCalls + 1⟩ with
            | mk res w3 =>
              cases res with
              | error e => simp only [clearedWorld_cleared env hdel, implies_true]
              | ok u => simp only [reduceCtorEq, false_implies]

theorem getProp_obj (fields : List (String × JsVal)) (key : String) :
    getProp (.obj fields) key = .ok (lookupField key fields) := rfl

theorem loginErrorMessage_run (r : Response) (w : World) :
    (loginErrorMessage r w).2 = w := by
  simp only [loginErrorMessage, bind_run, tryCatch_run, tryCatchThe, settle_run, pure_run]
  cases r.json with
  | error e => cases r.text <;> rfl
  | ok v =>
    simp only []
    cases getProp v "detail" with
    | error e => cases r.text <;> rfl
    | ok d =>
      simp only []
      cases truthy d
      · simp only [Bool.false_eq_true, if_false, bind_run, settle_run, pure_run]
        cases getProp v "message" with
        | error e => cases r.text <;> rfl
        | ok m => rfl
      · simp only [if_true, pure_run]

theorem keepsStore_pure {α : Type} (a : α) : keepsStore (pure a : Js α) := fun _ => rfl

theorem keepsStore_throw {α : Type} (e : JsError) : keepsStore (throw e : Js α) := fun _ => rfl

theorem keepsStore_settle {α : Type} (r : Except JsError α) : keepsStore (settle r) :=
  fun _ => rfl

theorem keepsStore_bind {α β : Type} {m : Js α} {f : α → Js β} (hm : keepsStore m)
    (hf : ∀ a, keepsStore (f a)) : keepsStore (m >>= f) := by
  intro w
  rw [bind_run]
  have h1 := hm w
  cases hmw : m w with
  | mk r w1 =>
    rw [hmw] at h1
    cases r with
    | error e => exact h1
    | ok a => exact (hf a w1).trans h1

theorem keepsStore_tryCatch {α : Type} {m : Js α} {h : JsError → Js α} (hm : keepsStore m)
    (hh : ∀ e, keepsStore (h e)) : keepsStore (tryCatch m h) := by
  intro w
  rw [tryCatch_run]
  have h1 := hm w
  cases hmw : m w with
  | mk r w1 =>
    rw [hmw] at h1
    cases r with
    | error e => exact (hh e w1).trans h1
    | ok a => exact h1

theorem keepsStore_ite {α : Type} {c : Prop} [Decidable c] {m n : Js α} (hm : keepsStore m)
    (hn : keepsStore n) : keepsStore (if c then m else n) := by
  split
  · exact hm
  · exact hn

theorem keepsStore_debugFetch (env : Env) (url : String) (options : FetchOptions) :
    keepsStore (debugFetch env url options) := by
  intro w
  rw [debugFetch_run]

theorem keepsStore_testBackendConnection (env : Env) : keepsStore (testBackendConnection env) := by
  intro w
  rw [testBackendConnection_run]

theorem keepsStore_registerErrorBody (r : Response) : keepsStore (registerErrorBody r) := by
  unfold registerErrorBody
  repeat' first
    | exact keepsStore_settle _
    | exact keepsStore_throw _
    | exact keepsStore_pure _
    | refine keepsStore_ite ?_ ?_
    | refine keepsStore_bind ?_ (fun _ => ?_)

theorem keepsStore_registerError (r : Response) : keepsStore (registerError r) := by
  unfold registerError
  repeat' first
    | exact keepsStore_registerErrorBody _
    | exact keepsStore_settle _
    | exact keepsStore_throw _
    | exact keepsStore_pure _
    | refine keepsStore_ite ?_ ?_
    | refine keepsStore_tryCatch ?_ (fun _ => ?_)
    | refine keepsStore_bind ?_ (fun _ => ?_)

theorem keepsStore_registerUser (env : Env) (userData : JsVal) :
    keepsStore (registerUser env userData) := by
  unfold registerUser
  repeat' first
    | exact keepsStore_registerError _
    | exact keepsStore_debugFetch _ _ _
    | exact keepsStore_testBackendConnection _
    | exact keepsStore_settle _
    | exact keepsStore_throw _
    | exact keepsStore_pure _
    | refine keepsStore_ite ?_ ?_
    | refine keepsStore_tryCatch ?_ (fun _ => ?_)
    | refine keepsStore_bind ?_ (fun _ => ?_)

theorem setItemRefresh_run (env : Env) (v : JsVal) (w : World) :
    setItemRefresh env v w =
      (match env.storageFault w.storageCalls (.setItem .refreshToken) with
        | some e => (.error e, { w with storageCalls := w.storageCalls + 1 })
        | none =>
          match v with
          | .str s => (.ok (), ⟨⟨w.store.accessToken, some s, w.store.user⟩, w.trace,
                                w.storageCalls + 1⟩)
          | _ => (.error notAString, { w with storageCalls := w.storageCalls + 1 })) := by
  simp only [setItemRefresh, storageCall, modifyStore, bind_run]
  cases env.storageFault w.storageCalls (.setItem .refreshToken) <;> cases v <;> rfl

theorem setItemUser_run (env : Env) (v : JsVal) (w : World) :
    setItemUser env v w =
      (match env.storageFault w.storageCalls (.setItem .user) with
        | some e => (.error e, { w with storageCalls := w.storageCalls + 1 })
        | none =>
          match v with
          | .undefined => (.error notAString, { w with storageCalls := w.storageCalls + 1 })
          | _ => (.ok (), ⟨⟨w.store.accessToken, w.store.refreshToken, some v⟩, w.trace,
                                w.storageCalls + 1⟩)) := by
  simp only [setItemUser, storageCall, modifyStore, bind_run]
  cases env.storageFault w.storageCalls (.setItem .user) <;> cases v <;> rfl

/-- The function `storeToken` never throws. -/
theorem storeToken_fst (env : Env) (a r : JsVal) (w : World) :
    (storeToken env a r w).1 = .ok () := by
  simp only [storeToken, bind_run, pure_run, tryCatch_run, tryCatchThe]
  cases setItemAccess env a w with
  | mk res w1 =>
    cases res with
    | error e => rfl
    | ok u =>
      simp only []
      cases setItemRefresh env r w1 with
      | mk res2 w2 => cases res2 <;> rfl

/-- The function `storeUser` never throws. -/
theorem storeUser_fst (env : Env) (v : JsVal) (w : World) :
    (storeUser env v w).1 = .ok () := by
  simp only [storeUser, bind_run, pure_run, tryCatch_run, tryCatchThe]
  cases setItemUser env v w with
  | mk res w1 => cases res <;> rfl

theorem storeToken_run (env : Env) (a r : JsVal) (w : World) :
    storeToken env a r w = (.ok (), afterStoreToken env a r w) :=
  Prod.ext (storeToken_fst env a r w) rfl

theorem storeUser_run (env : Env) (v : JsVal) (w : World) :
    storeUser env v w = (.ok (), afterStoreUser env v w) :=
  Prod.ext (storeUser_fst env v w) rfl

theorem afterStoreToken_reliable (env : Env) (h : env.reliable) (a r : String) (w : World) :
    afterStoreToken env (.str a) (.str r) w =
      ⟨⟨some a, some r, w.store.user⟩, w.trace, w.storageCalls + 1 + 1⟩ := by
  simp only [afterStoreToken, storeToken, bind_run, pure_run, tryCatch_run, tryCatchThe,
    setItemAccess_run, setItemRefresh_run, h _ _]

theorem afterStoreUser_reliable (env : Env) (h : env.reliable) (fields : List (String × JsVal))
    (w : World) :
    afterStoreUser env (.obj fields) w =
      ⟨⟨w.store.accessToken, w.store.refreshToken, some (.obj fields)⟩, w.trace,
        w.storageCalls + 1⟩ := by
  simp only [afterStoreUser, storeUser, bind_run, pure_run, tryCatch_run, tryCatchThe,
    setItemUser_run, h _ _]

/-- The success path of `loginUser`: probe answered 2xx, login answered 2xx with
a parsed body that is not `null`. -/
theorem loginUser_success_run (env : Env) (username password : String) (w : World)
    (p r : Response) (data : JsVal)
    (hp : env.server w.trace probeRequest = .response p) (hpok : p.ok = true)
    (hl : env.server (w.trace ++ [probeRequest]) (loginRequest username password) = .response r)
    (hok : r.ok = true) (hj : r.json = .ok data) (hd : nullish data = false) :
    loginUser env username password w =
      (.ok (envelopeOf data),
       afterStoreUser env (profileOf data)
         (afterTokenStep env data
           ⟨w.store, w.trace ++ [probeRequest, loginRequest username password],
             w.storageCalls⟩)) := by
  simp only [loginRequest] at hl
  have hg : ∀ key, getProp data key = .ok (propOf data key) := by
    intro key; simp only [getProp, hd, Bool.false_eq_true, if_false]
  simp only [loginUser, testBackendConnection_run, hp, hpok, debugFetch_run, bind_run,
    tryCatch_run, tryCatchThe, Bool.not_true, Bool.false_eq_true, if_false, pure_run,
    hl, hok, hj, settle_run, hg, loginRequest, List.append_assoc, List.singleton_append,
    envelopeOf, afterTokenStep, profileOf]
  cases hc : (truthy (propOf data "access") && truthy (propOf data "refresh"))
  · simp only [Bool.false_eq_true, if_false, bind_run, pure_run, storeUser_run]
  · simp only [if_true, bind_run, pure_run, storeUser_run, storeToken_run]

mutual
theorem reparse_defined : ∀ v : JsVal, defined v = true → reparse v = v
  | .undefined, h => by simp [defined] at h
  | .null, _ => rfl
  | .bool _, _ => rfl
  | .num _, _ => rfl
  | .str _, _ => rfl
  | .arr items, h => by
    simp only [defined] at h
    simp only [reparse, reparseItems_defined items h]
  | .obj fields, h => by
    simp only [defined] at h
    simp only [reparse, reparseFields_defined fields h]
theorem reparseItems_defined : ∀ items : List JsVal, definedItems items = true →
    reparseItems items = items
  | [], _ => rfl
  | v :: rest, h => by
    simp only [definedItems, Bool.and_eq_true] at h
    cases v with
    | undefined => simp [defined] at h
    | _ => simp only [reparseItems, reparse_defined _ h.1, reparseItems_defined rest h.2]
theorem reparseFields_defined : ∀ fields : List (String × JsVal), definedFields fields = true →
    reparseFields fields = fields
  | [], _ => rfl
  | (k, v) :: rest, h => by
    simp only [definedFields, Bool.and_eq_true] at h
    cases v with
    | undefined => simp [defined] at h
    | _ => simp only [reparseFields, reparse_defined _ h.1, reparseFields_defined rest h.2]
end

theorem afterStoreUser_tokens (env : Env) (v : JsVal) (w : World) :
    (afterStoreUser env v w).store.accessToken = w.store.accessToken ∧
    (afterStoreUser env v w).store.refreshToken = w.store.refreshToken := by
  simp only [afterStoreUser, storeUser, bind_run, pure_run, tryCatch_run, tryCatchThe,
    setItemUser_run]
  cases env.storageFault w.storageCalls (.setItem .user) with
  | some e => exact ⟨rfl, rfl⟩
  | none => cases v <;> exact ⟨rfl, rfl⟩

theorem lookupField_setField_same (key : String) (v : JsVal) (fields : List (String × JsVal)) :
    lookupField key (setField key v fields) = v := by
  induction fields with
  | nil => simp [setField, lookupField]
  | cons kv rest ih =>
    obtain ⟨k, old⟩ := kv
    by_cases h : k = key
    · simp [setField, lookupField, h]
    · simp [setField, lookupField, h, ih]

theorem lookupField_setField_ne {key other : String} (h : key ≠ other) (v : JsVal)
    (fields : List (String × JsVal)) :
    lookupField key (setField other v fields) = lookupField key fields := by
  induction fields with
  | nil => simp [setField, lookupField, Ne.symm h]
  | cons kv rest ih =>
    obtain ⟨k, old⟩ := kv
    by_cases hk : k = other
    · subst hk
      simp [setField, lookupField, Ne.symm h]
    · by_cases hk2 : k = key
      · subst hk2
        simp [setField, lookupField, hk]
      · simp [setField, lookupField, hk, hk2, ih]

theorem getUser_run (env : Env) (w : World) :
    getUser env w =
      (.ok (match env.storageFault w.storageCalls (.getItem .user) with
            | some _ => .null
            | none =>
              match w.store.user with
              | some v => reparse v
              | none => .null),
       { w with storageCalls := w.storageCalls + 1 }) := by
  obtain ⟨⟨acc, ref, usr⟩, tr, n⟩ := w
  simp only [getUser, getItemUser, storageCall, readStore, bind_run, pure_run, tryCatch_run,
    tryCatchThe]
  cases env.storageFault n (.getItem .user) with
  | some e => rfl
  | none => cases usr <;> rfl

theorem includes_append_right {a needle : String} (h : includes a needle = true) (b : String) :
    includes (a ++ b) needle = true := by
  simp only [includes, List.any_eq_true, String.data_append] at h ⊢
  obtain ⟨t, ht, hpre⟩ := h
  refine ⟨t ++ b.data, ?_, ?_⟩
  · rw [List.mem_tails] at ht ⊢
    obtain ⟨pre, hpre2⟩ := ht
    exact ⟨pre, by rw [← hpre2, List.append_assoc]⟩
  · rw [List.isPrefixOf_iff_prefix] at hpre ⊢
    exact hpre.trans (List.prefix_append _ _)

theorem registerErrorBody_obj (r : Response) (fields : List (String × JsVal))
    (hj : r.json = .ok (.obj fields)) (w : World) :
    registerErrorBody r w = (.error (registrationError fields), w) := by
  simp only [registerErrorBody, registrationError, hj, settle_run, bind_run, getProp_obj]
  cases truthy (lookupField "username" fields)
  · simp only [Bool.false_eq_true, if_false, pure_run, bind_run, settle_run]
    cases truthy (lookupField "email" fields)
    · simp only [Bool.false_eq_true, if_false, pure_run, bind_run, settle_run]
      cases truthy (lookupField "password" fields)
      · simp only [Bool.false_eq_true, if_false, pure_run, bind_run, settle_run]
        cases truthy (lookupField "role" fields)
        · simp only [Bool.false_eq_true, if_false, pure_run, bind_run, settle_run]
          cases truthy (lookupField "detail" fields)
          · simp only [Bool.false_eq_true, if_false, pure_run, bind_run, settle_run]
            cases truthy (lookupField "message" fields)
            · simp only [Bool.false_eq_true, if_false, pure_run, bind_run, throw_run]
            · simp only [if_true, throw_run, bind_run]
          · simp only [if_true, throw_run, bind_run]
        · simp only [if_true, throw_run, bind_run]
      · simp only [if_true, throw_run, bind_run]
    · simp only [if_true, throw_run, bind_run]
  · simp only [if_true, throw_run, bind_run]

theorem registerError_obj (r : Response) (fields : List (String × JsVal))
    (hj : r.json = .ok (.obj fields)) (w : World) :
    registerError r w = (.error (surfaced r (registrationError fields)), w) := by
  simp only [registerError, tryCatch_run, tryCatchThe, registerErrorBody_obj r fields hj,
    surfaced]
  cases includes (registrationError fields).message ":"
  · simp only [Bool.false_eq_true, if_false, pure_run, bind_run, settle_run]
    cases r.text <;> rfl
  · simp only [if_true, throw_run, bind_run]

/-- The error path of `registerUser`: probe answered 2xx, registration answered
outside 2xx with a body that parsed to an object. -/
theorem registerUser_rejected_run (env : Env) (userData : JsVal) (w : World)
    (p r : Response) (fields : List (String × JsVal))
    (hu : nullish userData = false)
    (hp : env.server w.trace probeRequest = .response p) (hpok : p.ok = true)
    (hl : env.server (w.trace ++ [probeRequest]) (registerRequest userData) = .response r)
    (hnok : r.ok = false) (hj : r.json = .ok (.obj fields)) :
    registerUser env userData w =
      (.error (surfaced r (registrationError fields)),
       ⟨w.store, w.trace ++ [probeRequest, registerRequest userData], w.storageCalls⟩) := by
  simp only [registerRequest] at hl
  have hg : ∀ key, getProp userData key = .ok (propOf userData key) := by
    intro key; simp only [getProp, hu, Bool.false_eq_true, if_false]
  simp only [registerUser, testBackendConnection_run, hp, hpok, debugFetch_run, bind_run,
    tryCatch_run, tryCatchThe, Bool.not_true, Bool.false_eq_true, if_false, pure_run,
    hl, hnok, Bool.not_false, if_true, settle_run, hg, registerRequest, List.append_assoc,
    List.singleton_append, registerError_obj _ fields hj, throw_run]

theorem carries_truthy {v : JsVal} {s : String} (h : carries v s) : truthy v = true := by
  rcases h with ⟨rfl, hne⟩ | ⟨rest, rfl⟩
  · simp [truthy, hne]
  · rfl

theorem carries_first {v : JsVal} {s : String} (h : carries v s) :
    toJsString (firstMessage v) = s := by
  rcases h with ⟨rfl, _⟩ | ⟨rest, rfl⟩
  · simp [firstMessage, toJsString]
  · simp [firstMessage, toJsString]

theorem surfaced_of_colon (r : Response) (e : JsError) (h : includes e.message ":" = true) :
    surfaced r e = e := by
  simp only [surfaced, h, if_true]

theorem status_of_ok {r : Response} (h : r.ok = true) : r.status ≠ 401 := by
  simp only [Response.ok, Bool.and_eq_true, decide_eq_true_eq] at h
  omega

theorem finish_ok (r : Response) (body : JsVal) (hok : r.ok = true) (hj : r.json = .ok body)
    (w : World) : finish r w = (.ok body, w) := by
  simp only [finish, hok, Bool.not_true, Bool.false_eq_true, if_false, pure_run, bind_run,
    settle_run, hj]

theorem finish_rejected (r : Response) (fields : List (String × JsVal)) (hnok : r.ok = false)
    (hj : r.json = .ok (.obj fields)) (w : World) :
    finish r w =
      (.error (errorOf (jsOr (lookupField "detail" fields)
        (jsOr (lookupField "message" fields) (.str "Request failed")))), w) := by
  simp only [finish, hnok, Bool.not_false, if_true, bind_run, settle_run, hj, getProp_obj, jsOr]
  cases truthy (lookupField "detail" fields)
  · simp only [Bool.false_eq_true, if_false, pure_run, bind_run, settle_run, throw_run]
  · simp only [if_true, throw_run, bind_run]

theorem loginErrorMessage_eq (r : Response) (w : World) :
    loginErrorMessage r w = ((loginErrorMessage r w).1, w) :=
  Prod.ext rfl (loginErrorMessage_run r w)

/-- What `loginUser` does to the store: nothing, or the writes of its success path. -/
theorem loginUser_store_cases (env : Env) (username password : String) (w : World) :
    (loginUser env username password w).2.store = w.store ∨
    ∃ p r data, env.server w.trace probeRequest = .response p ∧ p.ok = true ∧
      env.server (w.trace ++ [probeRequest]) (loginRequest username password) =
        .response r ∧ r.ok = true ∧ r.json = .ok data ∧
      (loginUser env username password w).2 =
        afterStoreUser env (profileOf data)
          (afterTokenStep env data
            ⟨w.store, w.trace ++ [probeRequest, loginRequest username password],
              w.storageCalls⟩) := by
  cases hp : env.server w.trace probeRequest with
  | failure e =>
    left
    simp only [loginUser, testBackendConnection_run, hp, bind_run, tryCatch_run, tryCatchThe,
      Bool.not_false, if_true, throw_run]
  | response p =>
    cases hpok : p.ok
    · left
      simp only [loginUser, testBackendConnection_run, hp, hpok, bind_run, tryCatch_run,
        tryCatchThe, Bool.not_false, if_true, throw_run]
    · cases hl : env.server (w.trace ++ [probeRequest]) (loginRequest username password) with
      | failure e =>
        left
        simp only [loginRequest] at hl
        simp only [loginUser, testBackendConnection_run, hp, hpok, debugFetch_run, bind_run,
          tryCatch_run, tryCatchThe, Bool.not_true, Bool.false_eq_true, if_false, pure_run, hl,
          throw_run]
      | response r =>
        cases hok : r.ok
        · left
          have hl2 := hl
          simp only [loginRequest] at hl2
          simp only [loginUser, testBackendConnection_run, hp, hpok, debugFetch_run, bind_run,
            tryCatch_run, tryCatchThe, Bool.not_true, Bool.false_eq_true, if_false, pure_run,
            hl2, hok, Bool.not_false, if_true]
          rw [loginErrorMessage_eq]
          cases (loginErrorMessage r _).1 <;> rfl
        · cases hj : r.json with
          | error e =>
            left
            have hl2 := hl
            simp only [loginRequest] at hl2
            simp only [loginUser, testBackendConnection_run, hp, hpok, debugFetch_run,
              bind_run, tryCatch_run, tryCatchThe, Bool.not_true, Bool.false_eq_true, if_false,
              pure_run, hl2, hok, hj, settle_run, throw_run]
          | ok data =>
            cases hd : nullish data
            · right
              exact ⟨p, r, data, rfl, hpok, rfl, hok, hj,
                by rw [loginUser_success_run env username password w p r data hp hpok hl hok
                  hj hd]⟩
            · left
              have hl2 := hl
              simp only [loginRequest] at hl2
              simp only [loginUser, testBackendConnection_run, hp, hpok, debugFetch_run,
                bind_run, tryCatch_run, tryCatchThe, Bool.not_true, Bool.false_eq_true,
                if_false, pure_run, hl2, hok, hj, settle_run, getProp, hd, if_true, throw_run]

theorem truthy_str {a : String} (h : truthy (.str a) = true) : a ≠ "" := by
  simpa [truthy] using h

/-- When `storeToken` is given an access token that is not a string, the first
write is refused and nothing is written; given two strings, it writes both. -/
theorem afterStoreToken_paired (env : Env) (hrel : env.reliable) (access refresh : JsVal)
    (hstr : ∀ a, access = .str a → ∃ t, refresh = .str t)
    (w : World) (hw : w.store.paired) :
    (afterStoreToken env access refresh w).store.paired := by
  cases access with
  | str a =>
    obtain ⟨t, rfl⟩ := hstr a rfl
    simp only [afterStoreToken, storeToken, bind_run, pure_run, tryCatch_run, tryCatchThe,
      setItemAccess_run, setItemRefresh_run, hrel _ _]
    rfl
  | undefined | null | bool _ | num _ | arr _ | obj _ =>
    simp only [afterStoreToken, storeToken, bind_run, pure_run, tryCatch_run, tryCatchThe,
      setItemAccess_run, setItemRefresh_run, hrel _ _]
    exact hw

theorem afterTokenStep_paired (env : Env) (hrel : env.reliable) (data : JsVal)
    (hstr : ∀ a, propOf data "access" = .str a → a ≠ "" →
      truthy (propOf data "refresh") = true → ∃ t, propOf data "refresh" = .str t)
    (w : World) (hw : w.store.paired) :
    (afterTokenStep env data w).store.paired := by
  unfold afterTokenStep
  split
  · rename_i hc
    simp only [Bool.and_eq_true] at hc
    refine afterStoreToken_paired env hrel _ _ (fun a ha => hstr a ha ?_ hc.2) w hw
    rw [ha] at hc
    exact truthy_str hc.1
  · exact hw

theorem loginUser_paired (env : Env) (hrel : env.reliable) (hstr : env.pairStorable)
    (username password : String) (w : World) (hw : w.store.paired) :
    (loginUser env username password w).2.store.paired := by
  rcases loginUser_store_cases env username password w with
    h | ⟨p, r, data, hp, hpok, hl, hok, hj, h⟩
  · rw [h]; exact hw
  · rw [h]
    have h2 := afterTokenStep_paired env hrel data
      (fun a => hstr w.trace username password p r data a hp hpok hl hok hj)
      ⟨w.store, w.trace ++ [probeRequest, loginRequest username password], w.storageCalls⟩ hw
    simp only [Store.paired, (afterStoreUser_tokens env _ _).1,
      (afterStoreUser_tokens env _ _).2] at h2 ⊢
    exact h2

theorem cleared_paired {st : Store} (h : st.cleared) : st.paired := by
  simp only [Store.paired, h.1, h.2.1]

theorem refreshAccessToken_paired (env : Env) (hrel : env.reliable) (w : World) :
    (refreshAccessToken env w).2.store.paired := by
  have hdel : env.deletesSucceed := fun n key => hrel n _
  rw [refreshAccessToken_run]
  simp only [hrel _ _]
  cases hp : present w.store.refreshToken
  · simp only [if_true, clearedWorld_eq env hdel]
    rfl
  · simp only [Bool.true_eq_false, if_false]
    cases env.server w.trace (refreshRequest (w.store.refreshToken.getD "")) with
    | failure e => simp only [clearedWorld_eq env hdel]; rfl
    | response rr =>
      simp only []
      cases hok : rr.ok
      · simp only [if_true, clearedWorld_eq env hdel]; rfl
      · simp only [Bool.true_eq_false, if_false]
        cases rr.json with
        | error e => simp only [clearedWorld_eq env hdel]; rfl
        | ok data =>
          simp only []
          cases getProp data "access" with
          | error e => simp only [clearedWorld_eq env hdel]; rfl
          | ok access =>
            simp only [setItemAccess_run, hrel _ _]
            have hsome : w.store.refreshToken.isSome = true := by
              cases hr : w.store.refreshToken with
              | none => rw [hr] at hp; simp [present] at hp
              | some t => rfl
            cases access <;> first
              | (simp only [clearedWorld_eq env hdel]; rfl)
              | (simp only [Store.paired, hsome]; rfl)

theorem fetchWithAuth_paired (env : Env) (hrel : env.reliable) (endpoint : String)
    (options : FetchOptions) (w : World) (hw : w.store.paired) :
    (fetchWithAuth env endpoint options w).2.store.paired := by
  rw [fetchWithAuth_run]
  simp only [hrel _ _]
  cases hp : present w.store.accessToken
  · simp only [if_true]; exact hw
  · simp only [Bool.true_eq_false, if_false]
    cases env.server w.trace
      (resourceRequest endpoint options (w.store.accessToken.getD "")) with
    | failure e => exact hw
    | response first =>
      simp only []
      by_cases h401 : first.status = 401
      · simp only [h401, if_true]
        have hr := refreshAccessToken_paired env hrel
          ⟨w.store, w.trace ++ [resourceRequest endpoint options
            (w.store.accessToken.getD "")], w.storageCalls + 1⟩
        cases hra : refreshAccessToken env
          ⟨w.store, w.trace ++ [resourceRequest endpoint options
            (w.store.accessToken.getD "")], w.storageCalls + 1⟩ with
        | mk res w3 =>
          rw [hra] at hr
          cases res with
          | error e => exact hr
          | ok a =>
            simp only []
            cases env.server w3.trace
              (retryRequest endpoint options (w.store.accessToken.getD "") a) with
            | failure e => exact hr
            | response second => simp only [finish_snd]; exact hr
      · simp only [h401, if_false, finish_snd]; exact hw

theorem run_paired (env : Env) (hrel : env.reliable) (hstr : env.pairStorable)
    (op : Operation) (w : World) (hw : w.store.paired) : (op.run env w).store.paired := by
  cases op with
  | login username password => exact loginUser_paired env hrel hstr username password w hw
  | register userData =>
    simp only [Operation.run, keepsStore_registerUser env userData w]; exact hw
  | refresh => exact refreshAccessToken_paired env hrel w
  | request endpoint options => exact fetchWithAuth_paired env hrel endpoint options w hw
  | logout =>
    have hdel : env.deletesSucceed := fun n key => hrel n _
    simp only [Operation.run, logoutUser, tryCatch_run, tryCatchThe, clearTokens_run,
      clearedWorld_eq env hdel]
    rfl

theorem runAll_paired (env : Env) (hrel : env.reliable) (hstr : env.pairStorable)
    (ops : List Operation) : ∀ w : World, w.store.paired → (runAll env ops w).store.paired := by
  induction ops with
  | nil => intro w hw; exact hw
  | cons op rest ih =>
    intro w hw
    exact ih (op.run env w) (run_paired env hrel hstr op w hw)

theorem find_code_none {l : List Course} {code : String}
    (h : l.find? (fun c => c.code == code) = none) : ∀ x ∈ l, x.code ≠ code := by
  intro x hx
  have := List.find?_eq_none.1 h x hx
  simpa using this

theorem find_code_some {l : List Course} {code : String} {y : Course}
    (h : l.find? (fun c => c.code == code) = some y) : ∃ x ∈ l, x.code = code := by
  refine ⟨y, List.mem_of_find?_eq_some h, ?_⟩
  have := List.find?_some h
  simpa using this

theorem toggleCourse_nodup (st : Selection) (course : Course) (h : st.codes.Nodup) :
    (toggleCourse st course).codes.Nodup := by
  unfold toggleCourse
  cases hf : st.selectedCourses.find? (fun c => c.code == course.code) with
  | some y =>
    simp only [Selection.codes]
    exact h.sublist ((List.filter_sublist _).map _)
  | none =>
    simp only [Selection.codes, List.map_append, List.map_cons, List.map_nil]
    have hne := find_code_none hf
    rw [List.nodup_append]
    refine ⟨h, List.nodup_singleton _, ?_⟩
    intro a ha hb
    simp only [List.mem_singleton] at hb
    subst hb
    obtain ⟨x, hx, hxa⟩ := List.mem_map.1 ha
    exact hne x hx hxa

theorem addCustomCourse_nodup (parseInt : String → Option Int) (st : Selection)
    (h : st.codes.Nodup) : (addCustomCourse parseInt st).codes.Nodup := by
  unfold addCustomCourse
  split
  · exact h
  · cases hf : st.selectedCourses.find? (fun c => c.code == st.customCourse.code) with
    | some y => exact h
    | none =>
      simp only [Selection.codes, List.map_append, List.map_cons, List.map_nil]
      have hne := find_code_none hf
      rw [List.nodup_append]
      refine ⟨h, List.nodup_singleton _, ?_⟩
      intro a ha hb
      simp only [List.mem_singleton] at hb
      subst hb
      obtain ⟨x, hx, hxa⟩ := List.mem_map.1 ha
      exact hne x hx hxa

theorem apply_nodup (parseInt : String → Option Int) (st : Selection) (event : SelectionEvent)
    (h : st.codes.Nodup) : (event.apply parseInt st).codes.Nodup := by
  cases event with
  | toggle course => exact toggleCourse_nodup st course h
  | typeCode value => exact h
  | typeName value => exact h
  | typeCredits value => exact h
  | add => exact addCustomCourse_nodup parseInt st h

theorem foldl_nodup (parseInt : String → Option Int) (events : List SelectionEvent) :
    ∀ st : Selection, st.codes.Nodup →
      (events.foldl (SelectionEvent.apply parseInt) st).codes.Nodup := by
  induction events with
  | nil => intro st h; exact h
  | cons event rest ih => intro st h; exact ih _ (apply_nodup parseInt st event h)

theorem Regex.nullable_iff (r : Regex) : r.nullable = true ↔ r.Accepts [] := by
  induction r with
  | never => simp [Regex.nullable, Regex.Accepts]
  | empty => simp [Regex.nullable, Regex.Accepts]
  | one accepts => simp [Regex.nullable, Regex.Accepts]
  | seq a b iha ihb =>
    simp only [Regex.nullable, Regex.Accepts, Bool.and_eq_true, iha, ihb]
    constructor
    · rintro ⟨ha, hb⟩
      exact ⟨[], [], rfl, ha, hb⟩
    · rintro ⟨t, u, h, ha, hb⟩
      obtain ⟨rfl, rfl⟩ := List.append_eq_nil.1 h.symm
      exact ⟨ha, hb⟩
  | either a b iha ihb => simp only [Regex.nullable, Regex.Accepts, Bool.or_eq_true, iha, ihb]
  | star a _ =>
    simp only [Regex.nullable, Regex.Accepts, true_iff]
    exact ⟨[], rfl, by simp⟩

theorem Regex.deriv_iff (c : Char) (r : Regex) :
    ∀ s : List Char, (r.deriv c).Accepts s ↔ r.Accepts (c :: s) := by
  induction r with
  | never => intro s; simp [Regex.deriv, Regex.Accepts]
  | empty => intro s; simp [Regex.deriv, Regex.Accepts]
  | one accepts =>
    intro s
    simp only [Regex.deriv, Regex.Accepts]
    constructor
    · intro h
      split at h
      · rename_i hc
        simp only [Regex.Accepts] at h
        exact ⟨c, hc, by rw [h]⟩
      · simp only [Regex.Accepts] at h
    · rintro ⟨d, hd, hs⟩
      obtain ⟨rfl, rfl⟩ := List.cons_eq_cons.1 hs
      simp only [hd, if_true, Regex.Accepts]
  | seq a b iha ihb =>
    intro s
    have key : (∃ t u, s = t ++ u ∧ (a.deriv c).Accepts t ∧ b.Accepts u) ∨
        (a.Accepts [] ∧ b.Accepts (c :: s)) ↔
        ∃ t u, c :: s = t ++ u ∧ a.Accepts t ∧ b.Accepts u := by
      constructor
      · rintro (⟨t, u, h, ha, hb⟩ | ⟨ha, hb⟩)
        · exact ⟨c :: t, u, by rw [h]; rfl, (iha t).1 ha, hb⟩
        · exact ⟨[], c :: s, rfl, ha, hb⟩
      · rintro ⟨t, u, h, ha, hb⟩
        cases t with
        | nil =>
          right
          simp only [List.nil_append] at h
          rw [h]
          exact ⟨ha, hb⟩
        | cons d t' =>
          left
          simp only [List.cons_append, List.cons.injEq] at h
          obtain ⟨rfl, rfl⟩ := h
          exact ⟨t', u, rfl, (iha t').2 ha, hb⟩
    simp only [Regex.deriv]
    split
    · rename_i hn
      simp only [Regex.Accepts, ihb]
      rw [← key]
      have hnil := (Regex.nullable_iff a).1 hn
      constructor
      · rintro (h | h)
        · exact Or.inl h
        · exact Or.inr ⟨hnil, h⟩
      · rintro (h | ⟨_, h⟩)
        · exact Or.inl h
        · exact Or.inr h
    · rename_i hn
      simp only [Regex.Accepts]
      rw [← key]
      constructor
      · intro h; exact Or.inl h
      · rintro (h | ⟨ha, _⟩)
        · exact h
        · exact absurd ((Regex.nullable_iff a).2 ha) hn
  | either a b iha ihb =>
    intro s
    simp only [Regex.deriv, Regex.Accepts, iha, ihb]
  | star a iha =>
    intro s
    simp only [Regex.deriv, Regex.Accepts]
    constructor
    · rintro ⟨t, u, h, ha, parts, hu, hparts⟩
      refine ⟨(c :: t) :: parts, ?_, ?_⟩
      · simp only [List.flatten, List.cons_append, h, hu]
      · intro x hx
        rcases List.mem_cons.1 hx with rfl | hx
        · exact ⟨List.cons_ne_nil _ _, (iha t).1 ha⟩
        · exact hparts x hx
    · rintro ⟨parts, h, hparts⟩
      cases parts with
      | nil => simp [List.flatten] at h
      | cons p rest =>
        have hp := hparts p (List.mem_cons_self _ _)
        cases p with
        | nil => exact absurd rfl hp.1
        | cons d t =>
          simp only [List.flatten, List.cons_append, List.cons.injEq] at h
          obtain ⟨rfl, rfl⟩ := h
          exact ⟨t, rest.flatten, rfl, (iha t).2 hp.2, rest, rfl,
            fun x hx => hparts x (List.mem_cons_of_mem _ hx)⟩

theorem Regex.matchesAll_iff (s : List Char) :
    ∀ r : Regex, r.matchesAll s = true ↔ r.Accepts s := by
  induction s with
  | nil => intro r; exact r.nullable_iff
  | cons c rest ih =>
    intro r
    simp only [Regex.matchesAll]
    rw [ih, Regex.deriv_iff]

theorem Regex.accepts_star_one (accepts : Char → Bool) :
    ∀ s : List Char, (Regex.star (.one accepts)).Accepts s ↔ ∀ c ∈ s, accepts c = true := by
  intro s
  simp only [Regex.Accepts]
  constructor
  · rintro ⟨parts, rfl, hparts⟩ c hc
    obtain ⟨t, ht, hct⟩ := List.mem_flatten.1 hc
    obtain ⟨_, d, hd, rfl⟩ := hparts t ht
    simp only [List.mem_singleton] at hct
    rw [hct]; exact hd
  · intro h
    refine ⟨s.map (fun c => [c]), ?_, ?_⟩
    · clear h
      induction s with
      | nil => rfl
      | cons c rest ih => simp only [List.map_cons, List.flatten, List.singleton_append]
                          rw [← ih]
    · intro t ht
      obtain ⟨c, hc, rfl⟩ := List.mem_map.1 ht
      exact ⟨List.cons_ne_nil _ _, c, h c hc, rfl⟩

theorem Regex.accepts_plus_one (accepts : Char → Bool) (s : List Char) :
    (Regex.plus (.one accepts)).Accepts s ↔ s ≠ [] ∧ ∀ c ∈ s, accepts c = true := by
  simp only [Regex.plus]
  rw [Regex.Accepts]
  simp only [Regex.accepts_star_one]
  constructor
  · rintro ⟨t, u, rfl, ⟨c, hc, rfl⟩, hu⟩
    refine ⟨by simp, ?_⟩
    intro d hd
    rcases List.mem_append.1 hd with hd | hd
    · simp only [List.mem_singleton] at hd
      rw [hd]; exact hc
    · exact hu d hd
  · rintro ⟨hne, h⟩
    cases s with
    | nil => exact absurd rfl hne
    | cons c rest =>
      exact ⟨[c], rest, rfl, ⟨c, h c (List.mem_cons_self _ _), rfl⟩,
        fun d hd => h d (List.mem_cons_of_mem _ hd)⟩

theorem Regex.accepts_char (x : Char) (s : List Char) :
    (Regex.one (· == x)).Accepts s ↔ s = [x] := by
  simp only [Regex.Accepts, beq_iff_eq]
  constructor
  · rintro ⟨c, rfl, rfl⟩; rfl
  · rintro rfl; exact ⟨x, rfl, rfl⟩

/-- The class `\s` of the code is the set of white space characters. -/
theorem isSpace_iff (c : Char) : isSpace c = true ↔ WhiteSpace c := by
  simp only [isSpace, WhiteSpace, List.contains_eq_any_beq, List.any_cons, List.any_nil,
    Bool.or_false, Bool.or_eq_true, Bool.and_eq_true, decide_eq_true_eq, beq_iff_eq]
  omega

/-- The class `[^\s@]` of the code: neither white space nor `@`. -/
theorem plainChar_iff (c : Char) : plainChar c = true ↔ ¬ WhiteSpace c ∧ c ≠ '@' := by
  rw [← isSpace_iff]
  simp only [plainChar, Bool.not_eq_true', Bool.or_eq_false_iff, beq_eq_false_iff_ne, ne_eq,
    Bool.not_eq_true]

theorem foldl_units (l : List Char) : ∀ n : Nat,
    l.foldl (fun n c => n + (if c.toNat < 0x10000 then 1 else 2)) n =
      n + l.length + (l.filter (fun c => decide (0xFFFF < c.toNat))).length := by
  induction l with
  | nil => intro n; rfl
  | cons c rest ih =>
    intro n
    rw [List.foldl_cons, ih]
    by_cases hc : c.toNat < 0x10000
    · have hf : decide (0xFFFF < c.toNat) = false := by
        rw [decide_eq_false_iff_not]; omega
      simp only [if_pos hc, List.filter, hf, List.length_cons]
      omega
    · have hf : decide (0xFFFF < c.toNat) = true := by
        rw [decide_eq_true_eq]; omega
      simp only [if_neg hc, List.filter, hf, List.length_cons]
      omega

/-- The property `length` of the code counts every character once and the
characters above U+FFFF once more. -/
theorem jsLength_eq (text : String) : jsLength text = text.length + astralCount text := by
  rw [jsLength, foldl_units, astralCount, String.length]
  omega

/-- From an access token and a refresh token of which the store takes only the
first, a login on an empty store leaves the access token alone in it: a server
with pairs after every login has no such response. -/
theorem pairStorable_of_paired (env : Env) (hrel : env.reliable)
    (h : ∀ (username password : String) (w : World), w.store.cleared →
      (loginUser env username password w).2.store.paired) : env.pairStorable := by
  intro sent username password p r data a hp hpok hl hok hj ha hne htr
  have hd : nullish data = false := by
    cases data <;> first | rfl | (simp [propOf] at ha)
  have hpair := h username password ⟨⟨none, none, none⟩, sent, 0⟩ ⟨rfl, rfl, rfl⟩
  rw [loginUser_success_run env username password ⟨⟨none, none, none⟩, sent, 0⟩ p r data
    hp hpok hl hok hj hd] at hpair
  simp only [Store.paired, (afterStoreUser_tokens env _ _).1,
    (afterStoreUser_tokens env _ _).2] at hpair
  have hta : truthy (.str a) = true := by
    simp [truthy, hne]
  simp only [afterTokenStep, ha, hta, htr, Bool.and_self, if_true, afterStoreToken, storeToken,
    bind_run, pure_run, tryCatch_run, tryCatchThe, setItemAccess_run, setItemRefresh_run,
    hrel _ _] at hpair
  cases hr : propOf data "refresh" with
  | str t => exact ⟨t, rfl⟩
  | undefined | null | bool _ | num _ | arr _ | obj _ =>
    rw [hr] at hpair
    simp at hpair

theorem emailRegex_test_iff (text : String) : emailRegex.test text = true ↔ emailShape text := by
  simp only [Regex.test, Regex.matchesAll_iff, emailRegex, emailShape]
  simp only [Regex.Accepts.eq_4, Regex.accepts_plus_one, Regex.accepts_char, plainChar_iff]
  constructor
  · rintro ⟨name, r1, h1, ⟨hn, hnp⟩, at1, r2, h2, rfl, domain, r3, h3, ⟨hd, hdp⟩, dot1, tld, h4,
      rfl, ht, htp⟩
    refine ⟨name, domain, tld, hn, hd, ht, hnp, hdp, htp, ?_⟩
    rw [h1, h2, h3, h4]
    simp
  · rintro ⟨name, domain, tld, hn, hd, ht, hnp, hdp, htp, h⟩
    exact ⟨name, '@' :: (domain ++ '.' :: tld), h, ⟨hn, hnp⟩, ['@'], domain ++ '.' :: tld, rfl,
      rfl, domain, '.' :: tld, rfl, ⟨hd, hdp⟩, ['.'], tld, rfl, rfl, ht, htp⟩

/-! ## The claims -/

/-- C1: `fetchWithAuth` with no stored access token.  For every endpoint, options,
environment and world, when the `accessToken` slot is absent or the read of it
rejects, the call fails with `AuthRequiredError` (message
`No authentication token`), hands no request to `fetch` (the trace is unchanged)
and leaves the store as it was. -/
theorem fetchWithAuth_without_token (env : Env) (endpoint : String) (options : FetchOptions)
    (w : World)
    (h : w.store.accessToken = none ∨
      env.storageFault w.storageCalls (.getItem .accessToken) ≠ none) :
    (fetchWithAuth env endpoint options w).1 = .error (newError "No authentication token") ∧
    (fetchWithAuth env endpoint options w).2.trace = w.trace ∧
    (fetchWithAuth env endpoint options w).2.store = w.store := by
  have hp : present (match env.storageFault w.storageCalls (.getItem .accessToken) with
            | some _ => none
            | none => w.store.accessToken) = false := by
    rcases h with h | h
    · rw [h]; cases env.storageFault w.storageCalls (.getItem .accessToken) <;> rfl
    · cases hf : env.storageFault w.storageCalls (.getItem .accessToken) with
      | none => exact absurd hf h
      | some e => rfl
  rw [fetchWithAuth_run]
  simp only [hp, if_true, authRequiredError, and_self]

theorem fetchWithAuth_without_token_witness :
    (fetchWithAuth ⟨refreshingServer, noFault⟩ "/accounts/dashboard-stats/" plainOptions
        loggedOut).1 = .error (newError "No authentication token") ∧
    (fetchWithAuth ⟨refreshingServer, noFault⟩ "/accounts/dashboard-stats/" plainOptions
        loggedOut).2.trace = [] ∧
    (fetchWithAuth ⟨refreshingServer, noFault⟩ "/accounts/dashboard-stats/" plainOptions
        loggedOut).2.store = loggedOut.store :=
  fetchWithAuth_without_token ⟨refreshingServer, noFault⟩ "/accounts/dashboard-stats/"
    plainOptions loggedOut (Or.inl rfl)

/-- C2: transparent refresh in `fetchWithAuth`.  On a store whose calls succeed and
which holds a (non-empty) access token `t` and refresh token `r`: if the server
answers the first resource request with 401, the refresh request with a 2xx
whose body carries the access token `a`, and the retried resource request with a
2xx of JSON body `body`, then `fetchWithAuth` returns exactly `body`, and what
it sent is exactly the resource request, the refresh request and the retried
resource request, in that order: two resource calls and one refresh call. -/
theorem fetchWithAuth_transparent_refresh (env : Env) (endpoint : String)
    (options : FetchOptions) (w : World) (t r a : String) (first rr final : Response)
    (data body : JsVal)
    (hrel : env.reliable)
    (ht : w.store.accessToken = some t) (htne : t ≠ "")
    (hr : w.store.refreshToken = some r) (hrne : r ≠ "")
    (h1 : env.server w.trace (resourceRequest endpoint options t) = .response first)
    (h401 : first.status = 401)
    (h2 : env.server (w.trace ++ [resourceRequest endpoint options t]) (refreshRequest r) =
      .response rr)
    (hrok : rr.ok = true) (hrj : rr.json = .ok data)
    (hacc : getProp data "access" = .ok (.str a))
    (h3 : env.server (w.trace ++ [resourceRequest endpoint options t, refreshRequest r])
      (retryRequest endpoint options t (.str a)) = .response final)
    (hfok : final.ok = true) (hfj : final.json = .ok body) :
    (fetchWithAuth env endpoint options w).1 = .ok body ∧
    (fetchWithAuth env endpoint options w).2.trace =
      w.trace ++ [resourceRequest endpoint options t, refreshRequest r,
        retryRequest endpoint options t (.str a)] := by
  rw [fetchWithAuth_run]
  simp only [hrel _ _, ht, present_some htne, Option.getD_some, h1, h401, if_true,
    refreshAccessToken_run, hr, present_some hrne, h2, hrok, hrj, hacc, setItemAccess_run,
    List.append_assoc, List.singleton_append, h3, finish, hfok, hfj, Bool.true_eq_false, if_false,
    Bool.not_true, Bool.false_eq_true, pure_run, bind_run, settle_run, and_self]
  exact ⟨trivial, by simp⟩

theorem fetchWithAuth_transparent_refresh_witness :
    (fetchWithAuth ⟨refreshingServer, noFault⟩ "/accounts/dashboard-stats/" plainOptions
        loggedIn).1 = .ok (.obj [("achievements", .num 3)]) ∧
    (fetchWithAuth ⟨refreshingServer, noFault⟩ "/accounts/dashboard-stats/" plainOptions
        loggedIn).2.trace =
      [] ++ [resourceRequest "/accounts/dashboard-stats/" plainOptions "old",
        refreshRequest "r1",
        retryRequest "/accounts/dashboard-stats/" plainOptions "old" (.str "new")] :=
  fetchWithAuth_transparent_refresh ⟨refreshingServer, noFault⟩ "/accounts/dashboard-stats/"
    plainOptions loggedIn "old" "r1" "new" expired
    (jsonResponse 200 (.obj [("access", .str "new")]))
    (jsonResponse 200 (.obj [("achievements", .num 3)]))
    (.obj [("access", .str "new")]) (.obj [("achievements", .num 3)])
    (fun _ _ => rfl) rfl (by decide) rfl (by decide) rfl rfl rfl rfl rfl rfl rfl rfl rfl

/-- C3: retry-once bound of `fetchWithAuth`.  For every server and store behaviour a
single call sends an initial segment of: resource request, refresh request,
retried resource request, and nothing else.  So there is at most one request of
the refresh protocol and at most two for the guarded resource (counted by URL
when the endpoint is not the refresh path itself); and when the retried request
is answered, whatever its status (401 included), no further request follows and
the caller receives what the tail of `fetchWithAuth` makes of that answer. -/
theorem fetchWithAuth_retry_once (env : Env) (endpoint : String) (options : FetchOptions)
    (w : World) :
    ∃ sent : List Request,
      (fetchWithAuth env endpoint options w).2.trace = w.trace ++ sent ∧
      (sent = [] ∨
        (∃ t, sent = [resourceRequest endpoint options t]) ∨
        (∃ t r, sent = [resourceRequest endpoint options t, refreshRequest r]) ∨
        (∃ t r a, sent = [resourceRequest endpoint options t, refreshRequest r,
            retryRequest endpoint options t a] ∧
          ∀ second, env.server (w.trace ++ [resourceRequest endpoint options t, refreshRequest r])
              (retryRequest endpoint options t a) = .response second →
            (fetchWithAuth env endpoint options w).1 =
              (finish second (fetchWithAuth env endpoint options w).2).1)) ∧
      (endpoint ≠ "/token/refresh/" →
        sent.countP isRefreshCall ≤ 1 ∧ sent.countP (isResourceCall endpoint) ≤ 2) := by
  rw [fetchWithAuth_run]
  generalize (match env.storageFault w.storageCalls (.getItem .accessToken) with
            | some _ => none
            | none => w.store.accessToken) = tok
  cases hp : present tok
  · exact ⟨[], by simp [hp], Or.inl rfl, fun _ => by simp⟩
  · simp only [hp, Bool.true_eq_false, if_false]
    have hcount1 : endpoint ≠ "/token/refresh/" →
        [resourceRequest endpoint options (tok.getD "")].countP isRefreshCall ≤ 1 ∧
        [resourceRequest endpoint options (tok.getD "")].countP (isResourceCall endpoint) ≤ 2 := by
      intro _
      simp [List.countP_cons, isRefreshCall, isResourceCall, resourceRequest]
      split <;> omega
    cases hs : env.server w.trace (resourceRequest endpoint options (tok.getD "")) with
    | failure e => exact ⟨[_], rfl, Or.inr (Or.inl ⟨_, rfl⟩), hcount1⟩
    | response first =>
      simp only []
      by_cases h401 : first.status = 401
      · simp only [h401, if_true]
        have htr := refreshAccessToken_trace env
          ⟨w.store, w.trace ++ [resourceRequest endpoint options (tok.getD "")],
            w.storageCalls + 1⟩
        cases hra : refreshAccessToken env
          ⟨w.store, w.trace ++ [resourceRequest endpoint options (tok.getD "")],
            w.storageCalls + 1⟩ with
        | mk res w3 =>
          rw [hra] at htr
          simp only [] at htr
          rcases htr with ⟨herr, htr⟩ | ⟨r, htr⟩
          · subst herr
            exact ⟨[_], htr, Or.inr (Or.inl ⟨_, rfl⟩), hcount1⟩
          · have hcount2 : endpoint ≠ "/token/refresh/" →
                [resourceRequest endpoint options (tok.getD ""), refreshRequest r].countP
                  isRefreshCall ≤ 1 ∧
                [resourceRequest endpoint options (tok.getD ""), refreshRequest r].countP
                  (isResourceCall endpoint) ≤ 2 := by
              intro hne
              simp [List.countP_cons, isRefreshCall, isResourceCall, resourceRequest,
                refreshRequest, url_ne hne, url_ne_symm hne]
            cases res with
            | error e =>
              exact ⟨[_, _], by simp [htr], Or.inr (Or.inr (Or.inl ⟨_, _, rfl⟩)), hcount2⟩
            | ok a =>
              have hcount3 : endpoint ≠ "/token/refresh/" →
                  [resourceRequest endpoint options (tok.getD ""), refreshRequest r,
                    retryRequest endpoint options (tok.getD "") a].countP isRefreshCall ≤ 1 ∧
                  [resourceRequest endpoint options (tok.getD ""), refreshRequest r,
                    retryRequest endpoint options (tok.getD "") a].countP
                      (isResourceCall endpoint) ≤ 2 := by
                intro hne
                simp [List.countP_cons, isRefreshCall, isResourceCall, resourceRequest,
                  refreshRequest, retryRequest, url_ne hne, url_ne_symm hne]
              have htr2 : w3.trace =
                  w.trace ++ [resourceRequest endpoint options (tok.getD ""), refreshRequest r] := by
                simp [htr]
              simp only [htr2]
              cases hsec : env.server
                (w.trace ++ [resourceRequest endpoint options (tok.getD ""), refreshRequest r])
                (retryRequest endpoint options (tok.getD "") a) with
              | failure e2 =>
                refine ⟨[_, _, _], by simp, Or.inr (Or.inr (Or.inr ⟨_, _, _, rfl, ?_⟩)), hcount3⟩
                intro second h2
                rw [hsec] at h2
                cases h2
              | response second =>
                refine ⟨[_, _, _], by simp [finish_snd],
                  Or.inr (Or.inr (Or.inr ⟨_, _, _, rfl, ?_⟩)), hcount3⟩
                intro second2 h2
                rw [hsec] at h2
                cases h2
                simp only [finish_snd]
      · simp only [h401, if_false, finish_snd]
        exact ⟨[_], rfl, Or.inr (Or.inl ⟨_, rfl⟩), hcount1⟩

theorem fetchWithAuth_retry_once_witness :
    ∃ sent : List Request,
      (fetchWithAuth ⟨rejectingServer, noFault⟩ "/accounts/dashboard-stats/" plainOptions
        loggedIn).2.trace = loggedIn.trace ++ sent ∧
      (sent = [] ∨
        (∃ t, sent = [resourceRequest "/accounts/dashboard-stats/" plainOptions t]) ∨
        (∃ t r, sent = [resourceRequest "/accounts/dashboard-stats/" plainOptions t,
            refreshRequest r]) ∨
        (∃ t r a, sent = [resourceRequest "/accounts/dashboard-stats/" plainOptions t,
            refreshRequest r, retryRequest "/accounts/dashboard-stats/" plainOptions t a] ∧
          ∀ second, rejectingServer
              (loggedIn.trace ++ [resourceRequest "/accounts/dashboard-stats/" plainOptions t,
                refreshRequest r])
              (retryRequest "/accounts/dashboard-stats/" plainOptions t a) = .response second →
            (fetchWithAuth ⟨rejectingServer, noFault⟩ "/accounts/dashboard-stats/" plainOptions
              loggedIn).1 =
              (finish second (fetchWithAuth ⟨rejectingServer, noFault⟩
                "/accounts/dashboard-stats/" plainOptions loggedIn).2).1)) ∧
      ("/accounts/dashboard-stats/" ≠ "/token/refresh/" →
        sent.countP isRefreshCall ≤ 1 ∧
        sent.countP (isResourceCall "/accounts/dashboard-stats/") ≤ 2) :=
  fetchWithAuth_retry_once ⟨rejectingServer, noFault⟩ "/accounts/dashboard-stats/" plainOptions
    loggedIn

/-- C4: refresh failure during `fetchWithAuth`.  On a store whose calls succeed and
which holds a (non-empty) access token: if the resource request is answered
with 401 and the refresh protocol fails, because the refresh token is absent or
because the refresh endpoint answers with a status outside 2xx, then
`fetchWithAuth` fails with `SessionExpiredError` (message
`Session expired. Please login again.`) and afterwards the `accessToken`,
`refreshToken` and `user` slots are all absent. -/
theorem fetchWithAuth_refresh_failure (env : Env) (endpoint : String) (options : FetchOptions)
    (w : World) (t : String) (first : Response)
    (hrel : env.reliable)
    (ht : w.store.accessToken = some t) (htne : t ≠ "")
    (h1 : env.server w.trace (resourceRequest endpoint options t) = .response first)
    (h401 : first.status = 401)
    (hfail : w.store.refreshToken = none ∨
      ∃ r rr, w.store.refreshToken = some r ∧ r ≠ "" ∧
        env.server (w.trace ++ [resourceRequest endpoint options t]) (refreshRequest r) =
          .response rr ∧ rr.ok = false) :
    (fetchWithAuth env endpoint options w).1 =
      .error (newError "Session expired. Please login again.") ∧
    (fetchWithAuth env endpoint options w).2.store.cleared := by
  have hdel : env.deletesSucceed := fun n key => hrel n _
  rw [fetchWithAuth_run]
  rcases hfail with hnone | ⟨r, rr, hr, hrne, h2, hnok⟩
  · simp only [hrel _ _, ht, present_some htne, Option.getD_some, h1, h401, if_true,
      refreshAccessToken_run, hnone, present_none, Bool.true_eq_false, if_false,
      sessionExpiredError, clearedWorld_cleared env hdel, and_self]
  · simp only [hrel _ _, ht, present_some htne, Option.getD_some, h1, h401, if_true,
      refreshAccessToken_run, hr, present_some hrne, h2, hnok, Bool.true_eq_false, if_false,
      sessionExpiredError, clearedWorld_cleared env hdel, and_self]

theorem fetchWithAuth_refresh_failure_witness :
    (fetchWithAuth ⟨rejectingServer, noFault⟩ "/accounts/dashboard-stats/" plainOptions
        loggedIn).1 = .error (newError "Session expired. Please login again.") ∧
    (fetchWithAuth ⟨rejectingServer, noFault⟩ "/accounts/dashboard-stats/" plainOptions
        loggedIn).2.store.cleared :=
  fetchWithAuth_refresh_failure ⟨rejectingServer, noFault⟩ "/accounts/dashboard-stats/"
    plainOptions loggedIn "old" expired (fun _ _ => rfl) rfl (by decide) rfl rfl
    (Or.inr ⟨"r1", expired, rfl, by decide, rfl, rfl⟩)

/-- C5: the run of `fetchWithAuth` that the claim must cover and the code gets
wrong.  The first request is answered with 401, the refresh succeeds and stores
the new access token, and the retried request fails at the network level: the
caller receives `SessionExpiredError` although the refresh protocol returned
the new token, and the three slots are still filled. -/
theorem fetchWithAuth_session_expired_with_live_session :
    (fetchWithAuth ⟨droppingServer, noFault⟩ "/accounts/dashboard-stats/" plainOptions
        loggedIn).1 = .error (newError "Session expired. Please login again.") ∧
    (refreshAccessToken ⟨droppingServer, noFault⟩
        ⟨loggedIn.store, [resourceRequest "/accounts/dashboard-stats/" plainOptions "old"],
          1⟩).1 = .ok (.str "new") ∧
    (fetchWithAuth ⟨droppingServer, noFault⟩ "/accounts/dashboard-stats/" plainOptions
        loggedIn).2.store.accessToken = some "new" ∧
    (fetchWithAuth ⟨droppingServer, noFault⟩ "/accounts/dashboard-stats/" plainOptions
        loggedIn).2.store.refreshToken = some "r1" ∧
    (fetchWithAuth ⟨droppingServer, noFault⟩ "/accounts/dashboard-stats/" plainOptions
        loggedIn).2.store.user = some (.obj [("username", .str "alice")]) ∧
    (fetchWithAuth ⟨droppingServer, noFault⟩ "/accounts/dashboard-stats/" plainOptions
        loggedIn).2.trace =
      [resourceRequest "/accounts/dashboard-stats/" plainOptions "old", refreshRequest "r1",
        retryRequest "/accounts/dashboard-stats/" plainOptions "old" (.str "new")] :=
  ⟨rfl, rfl, rfl, rfl, rfl, rfl⟩

/-- C6: frame of a successful refresh.  On a store whose calls succeed and which
holds a (non-empty) refresh token `r`, when the refresh endpoint answers 2xx
with a body whose `access` is the string `a`, `refreshAccessToken` returns `a`,
the `accessToken` slot afterwards holds `a`, and the `refreshToken` and `user`
slots are what they were before the call. -/
theorem refreshAccessToken_success_frame (env : Env) (w : World) (r a : String)
    (rr : Response) (data : JsVal)
    (hrel : env.reliable)
    (hr : w.store.refreshToken = some r) (hrne : r ≠ "")
    (h2 : env.server w.trace (refreshRequest r) = .response rr)
    (hrok : rr.ok = true) (hrj : rr.json = .ok data)
    (hacc : getProp data "access" = .ok (.str a)) :
    (refreshAccessToken env w).1 = .ok (.str a) ∧
    (refreshAccessToken env w).2.store.accessToken = some a ∧
    (refreshAccessToken env w).2.store.refreshToken = w.store.refreshToken ∧
    (refreshAccessToken env w).2.store.user = w.store.user := by
  rw [refreshAccessToken_run]
  simp only [hrel _ _, hr, present_some hrne, Option.getD_some, h2, hrok, hrj, hacc,
    setItemAccess_run, Bool.true_eq_false, if_false, and_self]

theorem refreshAccessToken_success_frame_witness :
    (refreshAccessToken ⟨fun _ _ => .response (jsonResponse 200 (.obj [("access", .str "new")])),
        noFault⟩ loggedIn).1 = .ok (.str "new") ∧
    (refreshAccessToken ⟨fun _ _ => .response (jsonResponse 200 (.obj [("access", .str "new")])),
        noFault⟩ loggedIn).2.store.accessToken = some "new" ∧
    (refreshAccessToken ⟨fun _ _ => .response (jsonResponse 200 (.obj [("access", .str "new")])),
        noFault⟩ loggedIn).2.store.refreshToken = loggedIn.store.refreshToken ∧
    (refreshAccessToken ⟨fun _ _ => .response (jsonResponse 200 (.obj [("access", .str "new")])),
        noFault⟩ loggedIn).2.store.user = loggedIn.store.user :=
  refreshAccessToken_success_frame
    ⟨fun _ _ => .response (jsonResponse 200 (.obj [("access", .str "new")])), noFault⟩ loggedIn
    "r1" "new" (jsonResponse 200 (.obj [("access", .str "new")])) (.obj [("access", .str "new")])
    (fun _ _ => rfl) rfl (by decide) rfl rfl rfl rfl

/-- C7: a failing refresh clears everything before the error propagates.  On a store
whose deletes succeed, whenever `refreshAccessToken` fails the `accessToken`,
`refreshToken` and `user` slots are all absent in the world the caller gets
back with the error; and the error is the original one:
`No refresh token available` when the refresh token is absent,
`Token refresh failed` when the refresh endpoint answers outside 2xx. -/
theorem refreshAccessToken_failure_clears (env : Env) (w : World) (hdel : env.deletesSucceed) :
    (∀ e, (refreshAccessToken env w).1 = .error e →
      (refreshAccessToken env w).2.store.cleared) ∧
    (w.store.refreshToken = none →
      (refreshAccessToken env w).1 = .error (newError "No refresh token available")) ∧
    (∀ r rr, env.storageFault w.storageCalls (.getItem .refreshToken) = none →
      w.store.refreshToken = some r → r ≠ "" →
      env.server w.trace (refreshRequest r) = .response rr → rr.ok = false →
      (refreshAccessToken env w).1 = .error (newError "Token refresh failed")) := by
  refine ⟨fun e h => refreshAccessToken_error_cleared env hdel w e h, ?_, ?_⟩
  · intro hnone
    rw [refreshAccessToken_run]
    have hp : present (match env.storageFault w.storageCalls (.getItem .refreshToken) with
            | some _ => none
            | none => w.store.refreshToken) = false := by
      rw [hnone]; cases env.storageFault w.storageCalls (.getItem .refreshToken) <;> rfl
    simp only [hp, if_true, noRefreshTokenError]
  · intro r rr hread hr hrne h2 hnok
    rw [refreshAccessToken_run]
    simp only [hread, hr, present_some hrne, Option.getD_some, h2, hnok, Bool.true_eq_false,
      if_false, if_true, refreshRejectedError]

theorem refreshAccessToken_failure_clears_witness :
    (refreshAccessToken ⟨rejectingServer, noFault⟩ loggedIn).1 =
      .error (newError "Token refresh failed") ∧
    (refreshAccessToken ⟨rejectingServer, noFault⟩ loggedIn).2.store.cleared :=
  have h := refreshAccessToken_failure_clears ⟨rejectingServer, noFault⟩ loggedIn
    (fun _ _ => rfl)
  ⟨h.2.2 "r1" expired rfl rfl (by decide) rfl rfl,
    h.1 _ (h.2.2 "r1" expired rfl rfl (by decide) rfl rfl)⟩

/-- C8: refresh with no refresh token makes no network call.  For every environment
and world whose `refreshToken` slot is absent, `refreshAccessToken` fails with
`NoRefreshTokenError` (message `No refresh token available`) and hands no
request to `fetch`. -/
theorem refreshAccessToken_without_refresh_token (env : Env) (w : World)
    (h : w.store.refreshToken = none) :
    (refreshAccessToken env w).1 = .error (newError "No refresh token available") ∧
    (refreshAccessToken env w).2.trace = w.trace := by
  have hp : present (match env.storageFault w.storageCalls (.getItem .refreshToken) with
          | some _ => none
          | none => w.store.refreshToken) = false := by
    rw [h]; cases env.storageFault w.storageCalls (.getItem .refreshToken) <;> rfl
  rw [refreshAccessToken_run]
  simp only [hp, if_true, noRefreshTokenError, clearedWorld_trace, and_self]

theorem refreshAccessToken_without_refresh_token_witness :
    (refreshAccessToken ⟨refreshingServer, noFault⟩ loggedOut).1 =
      .error (newError "No refresh token available") ∧
    (refreshAccessToken ⟨refreshingServer, noFault⟩ loggedOut).2.trace = loggedOut.trace :=
  refreshAccessToken_without_refresh_token ⟨refreshingServer, noFault⟩ loggedOut rfl

/-- C9: login pre-flight gate.  For every identifier and secret, if the connectivity
probe fails (the probe request rejects, or its response is not 2xx), `loginUser`
fails with `ConnectionError`, the only request it sends is the `OPTIONS` probe
(so no `POST` reaches the login endpoint), and the store is unchanged. -/
theorem loginUser_probe_gate (env : Env) (username password : String) (w : World)
    (h : (∃ e, env.server w.trace probeRequest = .failure e) ∨
      ∃ r, env.server w.trace probeRequest = .response r ∧ r.ok = false) :
    (loginUser env username password w).1 =
      .error (newError
        "Cannot connect to server. Please check your connection and try again.") ∧
    (loginUser env username password w).2.trace = w.trace ++ [probeRequest] ∧
    (loginUser env username password w).2.store = w.store := by
  have hprobe : (match env.server w.trace probeRequest with
            | .response r => r.ok
            | .failure _ => false) = false := by
    rcases h with ⟨e, he⟩ | ⟨r, hr, hok⟩
    · rw [he]
    · rw [hr]; exact hok
  simp only [loginUser, testBackendConnection_run, bind_run, tryCatch_run, tryCatchThe, hprobe,
    Bool.not_false, if_true, throw_run, and_self]

theorem loginUser_probe_gate_witness :
    (loginUser ⟨deadServer, noFault⟩ "alice" "secret" loggedOut).1 =
      .error (newError
        "Cannot connect to server. Please check your connection and try again.") ∧
    (loginUser ⟨deadServer, noFault⟩ "alice" "secret" loggedOut).2.trace =
      loggedOut.trace ++ [probeRequest] ∧
    (loginUser ⟨deadServer, noFault⟩ "alice" "secret" loggedOut).2.store = loggedOut.store :=
  loginUser_probe_gate ⟨deadServer, noFault⟩ "alice" "secret" loggedOut
    (Or.inl ⟨_, rfl⟩)

/-- C10: a rejected login surfaces the server message and stores nothing.  When the
probe succeeds and the login endpoint answers outside 2xx with a JSON object,
`loginUser` fails with message exactly `d` if the object carries the non-empty
string `d` as `detail`, with message exactly `m` if `detail` is absent and
`message` is the non-empty string `m`; and the three slots of the store are
what they were before the call. -/
theorem loginUser_rejected (env : Env) (username password : String) (w : World)
    (p r : Response) (fields : List (String × JsVal))
    (hp : env.server w.trace probeRequest = .response p) (hpok : p.ok = true)
    (hl : env.server (w.trace ++ [probeRequest]) (loginRequest username password) = .response r)
    (hnok : r.ok = false) (hj : r.json = .ok (.obj fields)) :
    (∀ d, lookupField "detail" fields = .str d → d ≠ "" →
      (loginUser env username password w).1 = .error (newError d)) ∧
    (∀ m, lookupField "detail" fields = .undefined → lookupField "message" fields = .str m →
      m ≠ "" → (loginUser env username password w).1 = .error (newError m)) ∧
    (loginUser env username password w).2.store = w.store := by
  have hrun : loginUser env username password w =
      (.error (errorOf (jsOr (lookupField "detail" fields)
        (jsOr (lookupField "message" fields) (.str "Login failed")))),
       { w with trace := w.trace ++ [probeRequest] ++ [loginRequest username password] }) := by
    simp only [loginRequest] at hl
    simp only [loginUser, testBackendConnection_run, hp, hpok, debugFetch_run, bind_run,
      tryCatch_run, tryCatchThe, Bool.not_true, Bool.false_eq_true, if_false, pure_run,
      hl, hnok, Bool.not_false, if_true, loginErrorMessage, hj, settle_run,
      getProp_obj, jsOr, loginRequest]
    cases truthy (lookupField "detail" fields) <;> simp
  rw [hrun]
  refine ⟨?_, ?_, rfl⟩
  · intro d hd hne
    simp [hd, jsOr, truthy, hne, errorOf, toJsString]
  · intro m hd hm hne
    simp [hd, hm, jsOr, truthy, hne, errorOf, toJsString]

theorem loginUser_rejected_witness :
    (loginUser ⟨wrongPasswordServer, noFault⟩ "alice" "wrong" loggedOut).1 =
      .error (newError "Invalid credentials") ∧
    (loginUser ⟨wrongPasswordServer, noFault⟩ "alice" "wrong" loggedOut).2.store =
      loggedOut.store :=
  have h := loginUser_rejected ⟨wrongPasswordServer, noFault⟩ "alice" "wrong" loggedOut
    (jsonResponse 200 (.obj []))
    (jsonResponse 401 (.obj [("detail", .str "Invalid credentials")]))
    [("detail", .str "Invalid credentials")] rfl rfl rfl rfl rfl
  ⟨h.1 "Invalid credentials" rfl (by decide), h.2.2⟩

/-- C11: the login response that carries username, email and role both at top
level and under `user`, with different values.  The spread of `data.user` comes
after the three merged properties, so the profile that `loginUser` stores and
returns as `user` takes the nested values, not the top-level ones. -/
theorem loginUser_nested_user_overrides_top_level :
    (loginUser ⟨answering (jsonResponse 200 twoShapes), noFault⟩ "alice" "secret" loggedOut).1 =
      .ok (.obj [("access", .str "a1"), ("refresh", .str "r2"), ("username", .str "top"),
        ("email", .str "top@example.org"), ("role", .str "admin"),
        ("user", .obj [("username", .str "nested"), ("email", .str "nested@example.org"),
          ("role", .str "student")])]) ∧
    (loginUser ⟨answering (jsonResponse 200 twoShapes), noFault⟩ "alice" "secret"
        loggedOut).2.store.user =
      some (.obj [("username", .str "nested"), ("email", .str "nested@example.org"),
        ("role", .str "student")]) :=
  ⟨rfl, rfl⟩

/-- C12, as stated, fails: for the successful login response whose tokens are
nested under `user`, `loginUser` returns its envelope and the `accessToken` and
`refreshToken` slots stay empty. -/
theorem loginUser_nested_tokens_not_persisted :
    propOf (propOf nestedTokens "user") "access" = .str "a1" ∧
    propOf (propOf nestedTokens "user") "refresh" = .str "r2" ∧
    (loginUser ⟨answering (jsonResponse 200 nestedTokens), noFault⟩ "alice" "secret"
        loggedOut).1 = .ok (envelopeOf nestedTokens) ∧
    (loginUser ⟨answering (jsonResponse 200 nestedTokens), noFault⟩ "alice" "secret"
        loggedOut).2.store.accessToken = none ∧
    (loginUser ⟨answering (jsonResponse 200 nestedTokens), noFault⟩ "alice" "secret"
        loggedOut).2.store.refreshToken = none :=
  ⟨rfl, rfl, rfl, rfl, rfl⟩

/-- C12, amended: `loginUser` persists tokens from the top level only.  On a
successful login whose response has no truthy top-level `access` and `refresh`
pair (the shape with the tokens nested under `user` included), the `accessToken`
and `refreshToken` slots keep the values they had; when both are non-empty
strings at top level, on a store whose calls succeed, the two slots hold them
afterwards. -/
theorem loginUser_tokens_top_level_only (env : Env) (username password : String) (w : World)
    (p r : Response) (data : JsVal)
    (hp : env.server w.trace probeRequest = .response p) (hpok : p.ok = true)
    (hl : env.server (w.trace ++ [probeRequest]) (loginRequest username password) = .response r)
    (hok : r.ok = true) (hj : r.json = .ok data) (hd : nullish data = false) :
    (¬ (truthy (propOf data "access") = true ∧ truthy (propOf data "refresh") = true) →
      (loginUser env username password w).2.store.accessToken = w.store.accessToken ∧
      (loginUser env username password w).2.store.refreshToken = w.store.refreshToken) ∧
    (∀ a t, env.reliable → propOf data "access" = .str a → a ≠ "" →
      propOf data "refresh" = .str t → t ≠ "" →
      (loginUser env username password w).2.store.accessToken = some a ∧
      (loginUser env username password w).2.store.refreshToken = some t) := by
  rw [loginUser_success_run env username password w p r data hp hpok hl hok hj hd]
  simp only [(afterStoreUser_tokens env _ _).1, (afterStoreUser_tokens env _ _).2]
  constructor
  · intro hno
    have hc : (truthy (propOf data "access") && truthy (propOf data "refresh")) = false := by
      cases h1 : truthy (propOf data "access") <;> cases h2 : truthy (propOf data "refresh") <;>
        simp_all
    simp only [afterTokenStep, hc, Bool.false_eq_true, if_false, and_self]
  · intro a t hrel ha hane ht htne
    have hta : truthy (.str a) = true := by simp [truthy, hane]
    have htt : truthy (.str t) = true := by simp [truthy, htne]
    simp only [afterTokenStep, ha, ht, hta, htt, Bool.and_self, if_true,
      afterStoreToken_reliable env hrel, and_self]

theorem loginUser_tokens_top_level_only_witness :
    (loginUser ⟨answering (jsonResponse 200 nestedTokens), noFault⟩ "alice" "secret"
        loggedIn).2.store.accessToken = some "old" ∧
    (loginUser ⟨answering (jsonResponse 200 nestedTokens), noFault⟩ "alice" "secret"
        loggedIn).2.store.refreshToken = some "r1" :=
  (loginUser_tokens_top_level_only ⟨answering (jsonResponse 200 nestedTokens), noFault⟩
    "alice" "secret" loggedIn (jsonResponse 200 (.obj [])) (jsonResponse 200 nestedTokens)
    nestedTokens rfl rfl rfl rfl rfl rfl).1 (by decide)

/-- C13, as stated, fails: after the successful login whose response has no
tokens, the envelope has no `access` and no `refresh`, while `getToken` and
`getRefreshToken` return the tokens stored before the call. -/
theorem loginUser_round_trip_fails_without_tokens :
    (loginUser ⟨answering (jsonResponse 200 noTokens), noFault⟩ "alice" "secret" loggedIn).1 =
      .ok (envelopeOf noTokens) ∧
    propOf (envelopeOf noTokens) "access" = .undefined ∧
    (getToken ⟨answering (jsonResponse 200 noTokens), noFault⟩
      (loginUser ⟨answering (jsonResponse 200 noTokens), noFault⟩ "alice" "secret"
        loggedIn).2).1 = .ok (some "old") ∧
    propOf (envelopeOf noTokens) "refresh" = .undefined ∧
    (getRefreshToken ⟨answering (jsonResponse 200 noTokens), noFault⟩
      (loginUser ⟨answering (jsonResponse 200 noTokens), noFault⟩ "alice" "secret"
        loggedIn).2).1 = .ok (some "r1") :=
  ⟨rfl, rfl, rfl, rfl, rfl⟩

/-- C13, amended: login round trip for a response with a top-level token pair.  For
every prior store contents, on a store whose calls succeed, when the login
response is an object whose top-level `access` and `refresh` are the non-empty
strings `a` and `t`: `loginUser` returns the envelope `E` with `E.access = a`
and `E.refresh = t`, afterwards `getToken` returns `a` and `getRefreshToken`
returns `t`, the `user` slot holds `E.user`, which is the profile built from the
response alone, and `getUser` returns `E.user` as it reads back from its JSON
text: `E.user` itself whenever no property in it is `undefined`. -/
theorem loginUser_round_trip (env : Env) (username password : String) (w : World)
    (p r : Response) (fields : List (String × JsVal)) (a t : String)
    (hrel : env.reliable)
    (hp : env.server w.trace probeRequest = .response p) (hpok : p.ok = true)
    (hl : env.server (w.trace ++ [probeRequest]) (loginRequest username password) = .response r)
    (hok : r.ok = true) (hj : r.json = .ok (.obj fields))
    (ha : lookupField "access" fields = .str a) (hane : a ≠ "")
    (ht : lookupField "refresh" fields = .str t) (htne : t ≠ "") :
    (loginUser env username password w).1 = .ok (envelopeOf (.obj fields)) ∧
    propOf (envelopeOf (.obj fields)) "access" = .str a ∧
    (getToken env (loginUser env username password w).2).1 = .ok (some a) ∧
    propOf (envelopeOf (.obj fields)) "refresh" = .str t ∧
    (getRefreshToken env (loginUser env username password w).2).1 = .ok (some t) ∧
    (loginUser env username password w).2.store.user =
      some (propOf (envelopeOf (.obj fields)) "user") ∧
    propOf (envelopeOf (.obj fields)) "user" = profileOf (.obj fields) ∧
    (getUser env (loginUser env username password w).2).1 =
      .ok (reparse (propOf (envelopeOf (.obj fields)) "user")) ∧
    (defined (propOf (envelopeOf (.obj fields)) "user") = true →
      (getUser env (loginUser env username password w).2).1 =
        .ok (propOf (envelopeOf (.obj fields)) "user")) := by
  have huser : propOf (envelopeOf (.obj fields)) "user" = profileOf (.obj fields) := by
    simp only [envelopeOf, propOf, ownEntries, lookupField_setField_same]
  have hacc : propOf (envelopeOf (.obj fields)) "access" = .str a := by
    simp only [envelopeOf, propOf, ownEntries,
      lookupField_setField_ne (show "access" ≠ "user" by decide), ha]
  have href : propOf (envelopeOf (.obj fields)) "refresh" = .str t := by
    simp only [envelopeOf, propOf, ownEntries,
      lookupField_setField_ne (show "refresh" ≠ "user" by decide), ht]
  have hta : truthy (.str a) = true := by simp [truthy, hane]
  have htt : truthy (.str t) = true := by simp [truthy, htne]
  have hrun := loginUser_success_run env username password w p r (.obj fields) hp hpok hl hok hj
    rfl
  have hw : (loginUser env username password w).2 =
      ⟨⟨some a, some t, some (profileOf (.obj fields))⟩,
        w.trace ++ [probeRequest, loginRequest username password],
        w.storageCalls + 1 + 1 + 1⟩ := by
    rw [hrun]
    simp only [afterTokenStep, propOf, ha, ht, hta, htt, Bool.and_self, if_true,
      afterStoreToken_reliable env hrel, profileOf, afterStoreUser_reliable env hrel]
  have hget : (getUser env (loginUser env username password w).2).1 =
      .ok (reparse (profileOf (.obj fields))) := by
    rw [hw, getUser_run]
    simp only [hrel _ _]
  refine ⟨by rw [hrun], hacc, ?_, href, ?_, ?_, huser, ?_, ?_⟩
  · rw [hw, getToken_run]
    simp only [hrel _ _]
  · rw [hw, getRefreshToken_run]
    simp only [hrel _ _]
  · rw [hw, huser]
  · rw [huser]; exact hget
  · intro hdef
    rw [huser] at hdef ⊢
    rw [hget, reparse_defined _ hdef]

theorem loginUser_round_trip_witness :
    (getToken ⟨answering (jsonResponse 200 flatLogin), noFault⟩
      (loginUser ⟨answering (jsonResponse 200 flatLogin), noFault⟩ "alice" "secret"
        loggedIn).2).1 = .ok (some "a1") ∧
    (getUser ⟨answering (jsonResponse 200 flatLogin), noFault⟩
      (loginUser ⟨answering (jsonResponse 200 flatLogin), noFault⟩ "alice" "secret"
        loggedIn).2).1 = .ok (propOf (envelopeOf flatLogin) "user") :=
  have h := loginUser_round_trip ⟨answering (jsonResponse 200 flatLogin), noFault⟩
    "alice" "secret" loggedIn (jsonResponse 200 (.obj [])) (jsonResponse 200 flatLogin)
    [("access", .str "a1"), ("refresh", .str "r2"), ("username", .str "alice"),
      ("email", .str "alice@example.org"), ("role", .str "lecturer")]
    "a1" "r2" (fun _ _ => rfl) rfl rfl rfl rfl rfl rfl (by decide) rfl (by decide)
  ⟨h.2.2.1, h.2.2.2.2.2.2.2.2 rfl⟩

/-- C14: the login error body that is not JSON.  For a 500 whose body is an HTML
error page, `response.json()` reads the body and rejects, and the
`response.text()` of the `catch` block, called on the body already read, rejects
as well: `loginUser` fails with that `TypeError`, and the message
`Server error: 500 - ...` that the next line would build is never thrown. -/
theorem loginUser_unparseable_body_already_read :
    (loginUser ⟨answering unparseable, noFault⟩ "alice" "secret" loggedOut).1 =
      .error ⟨"TypeError", "Already read"⟩ ∧
    unparseable.status = 500 ∧ unparseable.ok = false :=
  ⟨rfl, rfl, rfl⟩

/-- C15: registration never starts a session.  For every input, environment and
world, whatever the outcome of `registerUser`, the `accessToken`, `refreshToken`
and `user` slots are what they were before the call. -/
theorem registerUser_never_touches_store (env : Env) (userData : JsVal) (w : World) :
    (registerUser env userData w).2.store.accessToken = w.store.accessToken ∧
    (registerUser env userData w).2.store.refreshToken = w.store.refreshToken ∧
    (registerUser env userData w).2.store.user = w.store.user := by
  rw [keepsStore_registerUser env userData w]
  exact ⟨rfl, rfl, rfl⟩

/-- C16, as stated, fails: for the body with `email` holding the array of
`Email already exists`, the message of `registerUser` is
`Email: Email already exists`, not the bare field message. -/
theorem registerUser_field_error_has_label :
    (registerUser
      ⟨answering (jsonResponse 400 (.obj [("email", .arr [.str "Email already exists"])])),
        noFault⟩ formFields loggedOut).1 = .error (newError "Email: Email already exists") ∧
    (registerUser
      ⟨answering (jsonResponse 400 (.obj [("email", .arr [.str "Email already exists"])])),
        noFault⟩ formFields loggedOut).1 ≠ .error (newError "Email already exists") :=
  ⟨rfl, fun h => absurd (Except.error.inj h) (by decide)⟩

/-- C16, amended: the field error is surfaced behind the label of its field.  When
the register endpoint answers outside 2xx with a JSON object whose
highest-precedence field key (`username`, `email`, `password`, `role`; the keys
before it falsy) holds the message `s`, as a non-empty string or as the first
element of an array, `registerUser` fails with message exactly `Username: s`,
`Email: s`, `Password: s` or `Role: s`. -/
theorem registerUser_field_error_labelled (env : Env) (userData : JsVal) (w : World)
    (p r : Response) (fields : List (String × JsVal))
    (hu : nullish userData = false)
    (hp : env.server w.trace probeRequest = .response p) (hpok : p.ok = true)
    (hl : env.server (w.trace ++ [probeRequest]) (registerRequest userData) = .response r)
    (hnok : r.ok = false) (hj : r.json = .ok (.obj fields)) :
    (∀ s, carries (lookupField "username" fields) s →
      (registerUser env userData w).1 = .error (newError ("Username: " ++ s))) ∧
    (∀ s, truthy (lookupField "username" fields) = false →
      carries (lookupField "email" fields) s →
      (registerUser env userData w).1 = .error (newError ("Email: " ++ s))) ∧
    (∀ s, truthy (lookupField "username" fields) = false →
      truthy (lookupField "email" fields) = false →
      carries (lookupField "password" fields) s →
      (registerUser env userData w).1 = .error (newError ("Password: " ++ s))) ∧
    (∀ s, truthy (lookupField "username" fields) = false →
      truthy (lookupField "email" fields) = false →
      truthy (lookupField "password" fields) = false →
      carries (lookupField "role" fields) s →
      (registerUser env userData w).1 = .error (newError ("Role: " ++ s))) := by
  rw [registerUser_rejected_run env userData w p r fields hu hp hpok hl hnok hj]
  refine ⟨?_, ?_, ?_, ?_⟩
  · intro s hc
    simp only [registrationError, carries_truthy hc, carries_first hc, if_true]
    rw [surfaced_of_colon _ _ (includes_append_right (by rfl) s)]
  · intro s h1 hc
    simp only [registrationError, h1, carries_truthy hc, carries_first hc, if_true,
      Bool.false_eq_true, if_false]
    rw [surfaced_of_colon _ _ (includes_append_right (by rfl) s)]
  · intro s h1 h2 hc
    simp only [registrationError, h1, h2, carries_truthy hc, carries_first hc, if_true,
      Bool.false_eq_true, if_false]
    rw [surfaced_of_colon _ _ (includes_append_right (by rfl) s)]
  · intro s h1 h2 h3 hc
    simp only [registrationError, h1, h2, h3, carries_truthy hc, carries_first hc, if_true,
      Bool.false_eq_true, if_false]
    rw [surfaced_of_colon _ _ (includes_append_right (by rfl) s)]

theorem registerUser_field_error_labelled_witness :
    (registerUser
      ⟨answering (jsonResponse 400 (.obj [("email", .arr [.str "Email already exists"])])),
        noFault⟩ formFields loggedOut).1 =
      .error (newError ("Email: " ++ "Email already exists")) :=
  (registerUser_field_error_labelled
    ⟨answering (jsonResponse 400 (.obj [("email", .arr [.str "Email already exists"])])),
      noFault⟩ formFields loggedOut (jsonResponse 200 (.obj []))
    (jsonResponse 400 (.obj [("email", .arr [.str "Email already exists"])]))
    [("email", .arr [.str "Email already exists"])] rfl rfl rfl rfl rfl rfl).2.1
    "Email already exists" rfl (Or.inr ⟨[], rfl⟩)

/-- C17, as stated, fails: in the body whose keys are `username` (holding `null`)
and `email`, the first key present is `username`, and the error `registerUser`
raises is the one of `email`. -/
theorem registerUser_passes_over_null_username :
    (ownEntries nullUsername).map Prod.fst = ["username", "email"] ∧
    (registerUser ⟨answering (jsonResponse 400 nullUsername), noFault⟩ formFields
      loggedOut).1 = .error (newError "Email: Email already exists") :=
  ⟨rfl, rfl⟩

/-- C17, amended: registration field precedence.  For every error body that is a
JSON object, the error `registerUser` raises comes from the first key, in the
order username, email, password, role, whose value is truthy, and depends on no
later key; so the username error is reported when username and email both carry
one, and a field error outranks `detail` and `message`.  After the four fields,
`detail` comes before `message`, for values whose text contains a colon. -/
theorem registerUser_field_precedence (env : Env) (userData : JsVal) (w : World)
    (p r : Response) (fields : List (String × JsVal))
    (hu : nullish userData = false)
    (hp : env.server w.trace probeRequest = .response p) (hpok : p.ok = true)
    (hl : env.server (w.trace ++ [probeRequest]) (registerRequest userData) = .response r)
    (hnok : r.ok = false) (hj : r.json = .ok (.obj fields)) :
    (truthy (lookupField "username" fields) = true →
      (registerUser env userData w).1 = .error (newError
        ("Username: " ++ toJsString (firstMessage (lookupField "username" fields))))) ∧
    (truthy (lookupField "username" fields) = false →
      truthy (lookupField "email" fields) = true →
      (registerUser env userData w).1 = .error (newError
        ("Email: " ++ toJsString (firstMessage (lookupField "email" fields))))) ∧
    (truthy (lookupField "username" fields) = false →
      truthy (lookupField "email" fields) = false →
      truthy (lookupField "password" fields) = true →
      (registerUser env userData w).1 = .error (newError
        ("Password: " ++ toJsString (firstMessage (lookupField "password" fields))))) ∧
    (truthy (lookupField "username" fields) = false →
      truthy (lookupField "email" fields) = false →
      truthy (lookupField "password" fields) = false →
      truthy (lookupField "role" fields) = true →
      (registerUser env userData w).1 = .error (newError
        ("Role: " ++ toJsString (firstMessage (lookupField "role" fields))))) ∧
    (truthy (lookupField "username" fields) = false →
      truthy (lookupField "email" fields) = false →
      truthy (lookupField "password" fields) = false →
      truthy (lookupField "role" fields) = false →
      truthy (lookupField "detail" fields) = true →
      includes (toJsString (lookupField "detail" fields)) ":" = true →
      (registerUser env userData w).1 = .error (errorOf (lookupField "detail" fields))) ∧
    (truthy (lookupField "username" fields) = false →
      truthy (lookupField "email" fields) = false →
      truthy (lookupField "password" fields) = false →
      truthy (lookupField "role" fields) = false →
      truthy (lookupField "detail" fields) = false →
      truthy (lookupField "message" fields) = true →
      includes (toJsString (lookupField "message" fields)) ":" = true →
      (registerUser env userData w).1 = .error (errorOf (lookupField "message" fields))) := by
  rw [registerUser_rejected_run env userData w p r fields hu hp hpok hl hnok hj]
  refine ⟨?_, ?_, ?_, ?_, ?_, ?_⟩
  · intro h1
    simp only [registrationError, h1, if_true]
    rw [surfaced_of_colon _ _ (includes_append_right (by rfl) _)]
  · intro h1 h2
    simp only [registrationError, h1, h2, if_true, Bool.false_eq_true, if_false]
    rw [surfaced_of_colon _ _ (includes_append_right (by rfl) _)]
  · intro h1 h2 h3
    simp only [registrationError, h1, h2, h3, if_true, Bool.false_eq_true, if_false]
    rw [surfaced_of_colon _ _ (includes_append_right (by rfl) _)]
  · intro h1 h2 h3 h4
    simp only [registrationError, h1, h2, h3, h4, if_true, Bool.false_eq_true, if_false]
    rw [surfaced_of_colon _ _ (includes_append_right (by rfl) _)]
  · intro h1 h2 h3 h4 h5 hc
    simp only [registrationError, h1, h2, h3, h4, h5, if_true, Bool.false_eq_true, if_false]
    rw [surfaced_of_colon _ _ hc]
  · intro h1 h2 h3 h4 h5 h6 hc
    simp only [registrationError, h1, h2, h3, h4, h5, h6, if_true, Bool.false_eq_true, if_false]
    rw [surfaced_of_colon _ _ hc]

theorem registerUser_field_precedence_witness :
    (registerUser
      ⟨answering (jsonResponse 400 (.obj [("detail", .str "Invalid input"),
        ("email", .arr [.str "Email already exists"]),
        ("username", .arr [.str "Username already taken"])])), noFault⟩ formFields
      loggedOut).1 = .error (newError "Username: Username already taken") :=
  (registerUser_field_precedence
    ⟨answering (jsonResponse 400 (.obj [("detail", .str "Invalid input"),
      ("email", .arr [.str "Email already exists"]),
      ("username", .arr [.str "Username already taken"])])), noFault⟩ formFields loggedOut
    (jsonResponse 200 (.obj []))
    (jsonResponse 400 (.obj [("detail", .str "Invalid input"),
      ("email", .arr [.str "Email already exists"]),
      ("username", .arr [.str "Username already taken"])]))
    [("detail", .str "Invalid input"), ("email", .arr [.str "Email already exists"]),
      ("username", .arr [.str "Username already taken"])] rfl rfl rfl rfl rfl rfl).1 rfl

/-- C18: the registration error body whose only key is `detail`, its text without
a colon.  The `catch` block of `registerUser` does not rethrow the error made
from `detail`: the caller receives `Server error: 400 - ` followed by the raw
body text, or the rejection of `response.text()` when the body can be read only
once.  The generic failure message, which has no colon either, is lost the same
way for a body without any of the six keys. -/
theorem registerUser_detail_without_colon_lost :
    (registerUser ⟨answering takenReadable, noFault⟩ formFields loggedOut).1 =
      .error (newError ("Server error: 400 - " ++ takenText)) ∧
    (registerUser ⟨answering takenConsumed, noFault⟩ formFields loggedOut).1 =
      .error ⟨"TypeError", "Already read"⟩ ∧
    (registerUser ⟨answering ⟨400, .ok (.obj []), .ok "\x7b\x7d"⟩, noFault⟩ formFields
      loggedOut).1 = .error (newError "Server error: 400 - \x7b\x7d") :=
  ⟨rfl, rfl, rfl⟩

/-- C19: registration pre-flight gate.  For every input object, if the connectivity
probe fails (the probe request rejects, or its response is not 2xx),
`registerUser` fails with `ConnectionError`, the only request it sends is the
`OPTIONS` probe (so no `POST` reaches the register endpoint), and the store is
unchanged. -/
theorem registerUser_probe_gate (env : Env) (userData : JsVal) (w : World)
    (hu : nullish userData = false)
    (h : (∃ e, env.server w.trace probeRequest = .failure e) ∨
      ∃ r, env.server w.trace probeRequest = .response r ∧ r.ok = false) :
    (registerUser env userData w).1 =
      .error (newError
        "Cannot connect to server. Please check your connection and try again.") ∧
    (registerUser env userData w).2.trace = w.trace ++ [probeRequest] ∧
    (registerUser env userData w).2.store = w.store := by
  have hprobe : (match env.server w.trace probeRequest with
            | .response r => r.ok
            | .failure _ => false) = false := by
    rcases h with ⟨e, he⟩ | ⟨r, hr, hok⟩
    · rw [he]
    · rw [hr]; exact hok
  have hg : ∀ key, getProp userData key = .ok (propOf userData key) := by
    intro key; simp only [getProp, hu, Bool.false_eq_true, if_false]
  simp only [registerUser, testBackendConnection_run, bind_run, tryCatch_run, tryCatchThe,
    hprobe, Bool.not_false, if_true, throw_run, settle_run, hg, and_self]

theorem registerUser_probe_gate_witness :
    (registerUser ⟨deadServer, noFault⟩ formFields loggedOut).1 =
      .error (newError
        "Cannot connect to server. Please check your connection and try again.") ∧
    (registerUser ⟨deadServer, noFault⟩ formFields loggedOut).2.trace =
      loggedOut.trace ++ [probeRequest] ∧
    (registerUser ⟨deadServer, noFault⟩ formFields loggedOut).2.store = loggedOut.store :=
  registerUser_probe_gate ⟨deadServer, noFault⟩ formFields loggedOut rfl (Or.inl ⟨_, rfl⟩)

/-- C20: logout clears the whole session.  For every store contents, on a store
whose deletes succeed, `logoutUser` returns without error and leaves the
`accessToken`, `refreshToken` and `user` slots absent; a second `logoutUser`
raises nothing and leaves the same empty store. -/
theorem logoutUser_clears_session (env : Env) (w : World) (hdel : env.deletesSucceed) :
    (logoutUser env w).1 = .ok () ∧
    (logoutUser env w).2.store.cleared ∧
    (logoutUser env (logoutUser env w).2).1 = .ok () ∧
    (logoutUser env (logoutUser env w).2).2.store = (logoutUser env w).2.store := by
  have hrun : ∀ w', logoutUser env w' = (.ok (), ⟨⟨none, none, none⟩, w'.trace,
      w'.storageCalls + 3⟩) := by
    intro w'
    simp only [logoutUser, tryCatch_run, tryCatchThe, clearTokens_run,
      clearedWorld_eq env hdel]
  simp only [hrun, Store.cleared, and_self]

theorem logoutUser_clears_session_witness :
    (logoutUser ⟨deadServer, noFault⟩ loggedIn).1 = .ok () ∧
    (logoutUser ⟨deadServer, noFault⟩ loggedIn).2.store.cleared ∧
    (logoutUser ⟨deadServer, noFault⟩ (logoutUser ⟨deadServer, noFault⟩ loggedIn).2).1 =
      .ok () ∧
    (logoutUser ⟨deadServer, noFault⟩ (logoutUser ⟨deadServer, noFault⟩ loggedIn).2).2.store =
      (logoutUser ⟨deadServer, noFault⟩ loggedIn).2.store :=
  logoutUser_clears_session ⟨deadServer, noFault⟩ loggedIn (fun _ _ => rfl)

/-- C21: logout never fails outward.  For every store contents and every behaviour
of the key-value store, any of the three deletes raising included, `logoutUser`
returns normally. -/
theorem logoutUser_never_throws (env : Env) (w : World) : (logoutUser env w).1 = .ok () := by
  simp only [logoutUser, tryCatch_run, tryCatchThe, clearTokens_run]

/-- C22: `testBackendConnection` is total and boolean.  For every outcome of the
`OPTIONS` probe (a response of any status, the abort of the timeout, a network
failure, any other rejection) it returns a boolean and never throws; the
boolean is `true` exactly when the probe produced a response with a 2xx
status. -/
theorem testBackendConnection_total (env : Env) (w : World) :
    ∃ b : Bool, (testBackendConnection env w).1 = .ok b ∧
      (b = true ↔ ∃ r, env.server w.trace probeRequest = .response r ∧ r.ok = true) := by
  rw [testBackendConnection_run]
  refine ⟨_, rfl, ?_⟩
  cases h : env.server w.trace probeRequest with
  | response r => simp
  | failure e => simp

/-- C24: failure of `fetchWithAuth` other than 401.  For every store with a
(non-empty) access token that can be read, when the resource request is
answered outside 2xx, not with 401, with a JSON object: `fetchWithAuth` fails
with the message `detail || message || 'Request failed'`, that is the `detail`
of the body when it has one, else its `message` when it has one, else
`Request failed`; the resource request is the only request sent (no refresh)
and the store is unchanged. -/
theorem fetchWithAuth_request_error (env : Env) (endpoint : String) (options : FetchOptions)
    (w : World) (t : String) (r : Response) (fields : List (String × JsVal))
    (hread : env.storageFault w.storageCalls (.getItem .accessToken) = none)
    (ht : w.store.accessToken = some t) (htne : t ≠ "")
    (h1 : env.server w.trace (resourceRequest endpoint options t) = .response r)
    (hnok : r.ok = false) (h401 : r.status ≠ 401) (hj : r.json = .ok (.obj fields)) :
    (fetchWithAuth env endpoint options w).1 =
      .error (errorOf (jsOr (lookupField "detail" fields)
        (jsOr (lookupField "message" fields) (.str "Request failed")))) ∧
    (∀ d, lookupField "detail" fields = .str d → d ≠ "" →
      (fetchWithAuth env endpoint options w).1 = .error (newError d)) ∧
    (∀ m, lookupField "detail" fields = .undefined → lookupField "message" fields = .str m →
      m ≠ "" → (fetchWithAuth env endpoint options w).1 = .error (newError m)) ∧
    (lookupField "detail" fields = .undefined → lookupField "message" fields = .undefined →
      (fetchWithAuth env endpoint options w).1 = .error (newError "Request failed")) ∧
    (fetchWithAuth env endpoint options w).2.trace =
      w.trace ++ [resourceRequest endpoint options t] ∧
    (fetchWithAuth env endpoint options w).2.store = w.store := by
  have hrun : fetchWithAuth env endpoint options w =
      (.error (errorOf (jsOr (lookupField "detail" fields)
        (jsOr (lookupField "message" fields) (.str "Request failed")))),
       ⟨w.store, w.trace ++ [resourceRequest endpoint options t], w.storageCalls + 1⟩) := by
    rw [fetchWithAuth_run]
    simp only [hread, ht, present_some htne, Option.getD_some, h1, h401, if_false,
      Bool.true_eq_false, finish_rejected r fields hnok hj]
  rw [hrun]
  refine ⟨rfl, ?_, ?_, ?_, rfl, rfl⟩
  · intro d hd hne
    simp [hd, jsOr, truthy, hne, errorOf, toJsString]
  · intro m hd hm hne
    simp [hd, hm, jsOr, truthy, hne, errorOf, toJsString]
  · intro hd hm
    simp [hd, hm, jsOr, truthy, errorOf, toJsString]

theorem fetchWithAuth_request_error_witness :
    (fetchWithAuth ⟨fun _ _ => .response (jsonResponse 403 (.obj [("detail", .str "Forbidden")])),
        noFault⟩ "/accounts/dashboard-stats/" plainOptions loggedIn).1 =
      .error (newError "Forbidden") ∧
    (fetchWithAuth ⟨fun _ _ => .response (jsonResponse 403 (.obj [("detail", .str "Forbidden")])),
        noFault⟩ "/accounts/dashboard-stats/" plainOptions loggedIn).2.store =
      loggedIn.store :=
  have h := fetchWithAuth_request_error
    ⟨fun _ _ => .response (jsonResponse 403 (.obj [("detail", .str "Forbidden")])), noFault⟩
    "/accounts/dashboard-stats/" plainOptions loggedIn "old"
    (jsonResponse 403 (.obj [("detail", .str "Forbidden")])) [("detail", .str "Forbidden")]
    rfl rfl (by decide) rfl rfl (by decide) rfl
  ⟨h.2.1 "Forbidden" rfl (by decide), h.2.2.2.2.2⟩

/-- C25: success path of `fetchWithAuth`.  For every store with a (non-empty)
access token that can be read, when the first resource request is answered 2xx
with JSON body `body`, `fetchWithAuth` returns exactly `body`, the resource
request is the only request sent (no refresh), and the store is unchanged. -/
theorem fetchWithAuth_success (env : Env) (endpoint : String) (options : FetchOptions)
    (w : World) (t : String) (r : Response) (body : JsVal)
    (hread : env.storageFault w.storageCalls (.getItem .accessToken) = none)
    (ht : w.store.accessToken = some t) (htne : t ≠ "")
    (h1 : env.server w.trace (resourceRequest endpoint options t) = .response r)
    (hok : r.ok = true) (hj : r.json = .ok body) :
    (fetchWithAuth env endpoint options w).1 = .ok body ∧
    (fetchWithAuth env endpoint options w).2.trace =
      w.trace ++ [resourceRequest endpoint options t] ∧
    (fetchWithAuth env endpoint options w).2.store = w.store := by
  rw [fetchWithAuth_run]
  simp only [hread, ht, present_some htne, Option.getD_some, h1, status_of_ok hok, if_false,
    Bool.true_eq_false, finish_ok r body hok hj, and_self]

theorem fetchWithAuth_success_witness :
    (fetchWithAuth ⟨fun _ _ => .response (jsonResponse 200 (.obj [("achievements", .num 3)])),
        noFault⟩ "/accounts/dashboard-stats/" plainOptions loggedIn).1 =
      .ok (.obj [("achievements", .num 3)]) ∧
    (fetchWithAuth ⟨fun _ _ => .response (jsonResponse 200 (.obj [("achievements", .num 3)])),
        noFault⟩ "/accounts/dashboard-stats/" plainOptions loggedIn).2.trace =
      loggedIn.trace ++ [resourceRequest "/accounts/dashboard-stats/" plainOptions "old"] ∧
    (fetchWithAuth ⟨fun _ _ => .response (jsonResponse 200 (.obj [("achievements", .num 3)])),
        noFault⟩ "/accounts/dashboard-stats/" plainOptions loggedIn).2.store =
      loggedIn.store :=
  fetchWithAuth_success
    ⟨fun _ _ => .response (jsonResponse 200 (.obj [("achievements", .num 3)])), noFault⟩
    "/accounts/dashboard-stats/" plainOptions loggedIn "old"
    (jsonResponse 200 (.obj [("achievements", .num 3)])) (.obj [("achievements", .num 3)])
    rfl rfl (by decide) rfl rfl rfl

/-- C23, as stated, fails: on an empty store without faults, a login answered 200
with `access` the string `a1` and `refresh` the number 7 leaves the
`accessToken` slot present and the `refreshToken` slot absent, because
`storeToken` writes the two one after the other and the store takes strings
only. -/
theorem pairing_broken_by_number_refresh :
    loggedOut.store.cleared ∧
    Env.reliable ⟨answering (jsonResponse 200 numberRefresh), noFault⟩ ∧
    (runAll ⟨answering (jsonResponse 200 numberRefresh), noFault⟩
      [Operation.login "alice" "secret"] loggedOut).store.accessToken = some "a1" ∧
    (runAll ⟨answering (jsonResponse 200 numberRefresh), noFault⟩
      [Operation.login "alice" "secret"] loggedOut).store.refreshToken = none ∧
    ¬ (runAll ⟨answering (jsonResponse 200 numberRefresh), noFault⟩
      [Operation.login "alice" "secret"] loggedOut).store.paired :=
  ⟨⟨rfl, rfl, rfl⟩, fun _ _ => rfl, rfl, rfl, fun h => Bool.noConfusion h⟩

/-- C23: credential pairing invariant.  On a store none of whose calls is rejected,
the servers for which the invariant holds are those no login of which pairs a
non-empty string `access` with a truthy `refresh` that is not a string: for such
a server, start from an empty store and apply any sequence of `loginUser`,
`registerUser`, `refreshAccessToken`, `fetchWithAuth` and `logoutUser`; after
each operation of the sequence, either both the `accessToken` and the
`refreshToken` slot are present or neither is.  For every other server some
sequence from an empty store breaks the pairing. -/
theorem pairing_invariant (env : Env) (hrel : env.reliable) :
    env.pairStorable ↔
      ∀ (ops : List Operation) (w : World), w.store.cleared → ∀ n : Nat,
        (runAll env (ops.take n) w).store.paired :=
  ⟨fun hstr ops w hempty n => runAll_paired env hrel hstr (ops.take n) w (cleared_paired hempty),
   fun h => pairStorable_of_paired env hrel
     (fun username password w hempty => h [Operation.login username password] w hempty 1)⟩

theorem pairing_invariant_witness :
    (runAll ⟨answering (jsonResponse 200 flatLogin), noFault⟩
      ([Operation.login "alice" "secret",
        Operation.request "/accounts/dashboard-stats/" plainOptions,
        Operation.refresh, Operation.logout].take 3) loggedOut).store.paired :=
  (pairing_invariant ⟨answering (jsonResponse 200 flatLogin), noFault⟩ (fun _ _ => rfl)).1
    (by
      intro sent username password p r data a hp hpok hl hok hj ha hne htr
      simp only [answering, List.length_append, List.length_singleton] at hl
      cases hl
      cases hj
      exact ⟨"r2", rfl⟩)
    [Operation.login "alice" "secret",
      Operation.request "/accounts/dashboard-stats/" plainOptions,
      Operation.refresh, Operation.logout] loggedOut ⟨rfl, rfl, rfl⟩ 3

/-- C26, as stated, fails: on a store that rejects every write, `loginUser` still
returns its success envelope for a 2xx login with tokens, and nothing has been
persisted. -/
theorem loginUser_succeeds_when_writes_raise :
    (setItemAccess ⟨answering (jsonResponse 200 flatLogin), writesFail⟩ (.str "a1")
      loggedOut).1 = .error (newError "Storage is full") ∧
    (setItemUser ⟨answering (jsonResponse 200 flatLogin), writesFail⟩ (profileOf flatLogin)
      loggedOut).1 = .error (newError "Storage is full") ∧
    (loginUser ⟨answering (jsonResponse 200 flatLogin), writesFail⟩ "alice" "secret"
      loggedOut).1 = .ok (envelopeOf flatLogin) ∧
    (loginUser ⟨answering (jsonResponse 200 flatLogin), writesFail⟩ "alice" "secret"
      loggedOut).2.store.accessToken = none ∧
    (loginUser ⟨answering (jsonResponse 200 flatLogin), writesFail⟩ "alice" "secret"
      loggedOut).2.store.refreshToken = none ∧
    (loginUser ⟨answering (jsonResponse 200 flatLogin), writesFail⟩ "alice" "secret"
      loggedOut).2.store.user = none :=
  ⟨rfl, rfl, rfl, rfl, rfl, rfl⟩

/-- C26, amended: storage errors are swallowed by the storage helpers, not only
inside logout.  On every successful login `loginUser` returns its envelope
whatever the store does, a rejected write of the tokens or of the profile
included.  A storage error fails outward where the operation calls the store
itself: when the write of the refreshed access token is rejected,
`refreshAccessToken` fails with that error. -/
theorem storage_errors_swallowed_by_helpers (env : Env) (username password : String)
    (w : World) (p r : Response) (data : JsVal)
    (hp : env.server w.trace probeRequest = .response p) (hpok : p.ok = true)
    (hl : env.server (w.trace ++ [probeRequest]) (loginRequest username password) = .response r)
    (hok : r.ok = true) (hj : r.json = .ok data) (hd : nullish data = false) :
    (loginUser env username password w).1 = .ok (envelopeOf data) ∧
    (∀ (w' : World) (rr : Response) (refreshed : JsVal) (t a : String) (e : JsError),
      env.storageFault w'.storageCalls (.getItem .refreshToken) = none →
      w'.store.refreshToken = some t → t ≠ "" →
      env.server w'.trace (refreshRequest t) = .response rr → rr.ok = true →
      rr.json = .ok refreshed → getProp refreshed "access" = .ok (.str a) →
      env.storageFault (w'.storageCalls + 1) (.setItem .accessToken) = some e →
      (refreshAccessToken env w').1 = .error e) := by
  constructor
  · rw [loginUser_success_run env username password w p r data hp hpok hl hok hj hd]
  · intro w' rr refreshed t a e hread ht htne h2 hrok hrj hacc hfault
    rw [refreshAccessToken_run]
    simp only [hread, ht, present_some htne, Option.getD_some, h2, hrok, hrj, hacc,
      setItemAccess_run, hfault, Bool.true_eq_false, if_false]

theorem storage_errors_swallowed_by_helpers_witness :
    (loginUser ⟨answering (jsonResponse 200 flatLogin), writesFail⟩ "alice" "secret"
      loggedOut).1 = .ok (envelopeOf flatLogin) ∧
    (refreshAccessToken
      ⟨fun _ _ => .response (jsonResponse 200 (.obj [("access", .str "new")])), writesFail⟩
      loggedIn).1 = .error (newError "Storage is full") :=
  ⟨(storage_errors_swallowed_by_helpers ⟨answering (jsonResponse 200 flatLogin), writesFail⟩
      "alice" "secret" loggedOut (jsonResponse 200 (.obj [])) (jsonResponse 200 flatLogin)
      flatLogin rfl rfl rfl rfl rfl rfl).1,
    (storage_errors_swallowed_by_helpers
      ⟨fun _ _ => .response (jsonResponse 200 (.obj [("access", .str "new")])), writesFail⟩
      "alice" "secret" loggedOut (jsonResponse 200 (.obj [("access", .str "new")]))
      (jsonResponse 200 (.obj [("access", .str "new")])) (.obj [("access", .str "new")])
      rfl rfl rfl rfl rfl rfl).2 loggedIn
      (jsonResponse 200 (.obj [("access", .str "new")])) (.obj [("access", .str "new")])
      "r1" "new" (newError "Storage is full") rfl rfl (by decide) rfl rfl rfl rfl rfl⟩

/-- C27: the guarded request for caller options that bring their own
`Authorization` header.  With the stored access token `old`, the first request
of `fetchWithAuth` carries the caller's `Basic abc`, not `Bearer old`; after the
refresh the retried request carries `Bearer new`. -/
theorem fetchWithAuth_caller_authorization_overrides_bearer :
    (fetchWithAuth ⟨refreshingServer, noFault⟩ "/accounts/dashboard-stats/" ownAuthorization
      loggedIn).2.trace.map (fun q => (q.url, q.options.headers)) =
      [(API_URL ++ "/accounts/dashboard-stats/",
          some [("Content-Type", "application/json"), ("Authorization", "Basic abc")]),
       (API_URL ++ "/token/refresh/", some [("Content-Type", "application/json")]),
       (API_URL ++ "/accounts/dashboard-stats/",
          some [("Content-Type", "application/json"), ("Authorization", "Bearer new")])] ∧
    loggedIn.store.accessToken = some "old" :=
  ⟨rfl, rfl⟩

/-- C28: token slots are written only on a complete top-level pair.  For every
prior store, on a store whose calls succeed, and every successful login
response: `loginUser` returns its envelope and the `user` slot holds the new
profile; when top-level `access` and `refresh` are both non-empty strings the
`accessToken` and `refreshToken` slots hold them afterwards; when they are not
both truthy, both token slots keep their previous values. -/
theorem loginUser_token_slots_frame (env : Env) (username password : String) (w : World)
    (p r : Response) (data : JsVal)
    (hrel : env.reliable)
    (hp : env.server w.trace probeRequest = .response p) (hpok : p.ok = true)
    (hl : env.server (w.trace ++ [probeRequest]) (loginRequest username password) = .response r)
    (hok : r.ok = true) (hj : r.json = .ok data) (hd : nullish data = false) :
    (loginUser env username password w).1 = .ok (envelopeOf data) ∧
    (loginUser env username password w).2.store.user = some (profileOf data) ∧
    (∀ a t, propOf data "access" = .str a → a ≠ "" →
      propOf data "refresh" = .str t → t ≠ "" →
      (loginUser env username password w).2.store.accessToken = some a ∧
      (loginUser env username password w).2.store.refreshToken = some t) ∧
    (¬ (truthy (propOf data "access") = true ∧ truthy (propOf data "refresh") = true) →
      (loginUser env username password w).2.store.accessToken = w.store.accessToken ∧
      (loginUser env username password w).2.store.refreshToken = w.store.refreshToken) := by
  rw [loginUser_success_run env username password w p r data hp hpok hl hok hj hd]
  have huser : ∀ w', (afterStoreUser env (profileOf data) w').store.user =
      some (profileOf data) := by
    intro w'
    simp only [profileOf, afterStoreUser_reliable env hrel]
  refine ⟨rfl, huser _, ?_, ?_⟩
  · intro a t ha hane ht htne
    have hta : truthy (.str a) = true := by simp [truthy, hane]
    have htt : truthy (.str t) = true := by simp [truthy, htne]
    simp only [(afterStoreUser_tokens env _ _).1, (afterStoreUser_tokens env _ _).2,
      afterTokenStep, ha, ht, hta, htt, Bool.and_self, if_true,
      afterStoreToken_reliable env hrel, and_self]
  · intro hno
    have hc : (truthy (propOf data "access") && truthy (propOf data "refresh")) = false := by
      cases h1 : truthy (propOf data "access") <;> cases h2 : truthy (propOf data "refresh") <;>
        simp_all
    simp only [(afterStoreUser_tokens env _ _).1, (afterStoreUser_tokens env _ _).2,
      afterTokenStep, hc, Bool.false_eq_true, if_false, and_self]

theorem loginUser_token_slots_frame_witness :
    (loginUser ⟨answering (jsonResponse 200 noTokens), noFault⟩ "alice" "secret"
      loggedIn).1 = .ok (envelopeOf noTokens) ∧
    (loginUser ⟨answering (jsonResponse 200 noTokens), noFault⟩ "alice" "secret"
      loggedIn).2.store.user = some (profileOf noTokens) ∧
    (loginUser ⟨answering (jsonResponse 200 noTokens), noFault⟩ "alice" "secret"
      loggedIn).2.store.accessToken = some "old" ∧
    (loginUser ⟨answering (jsonResponse 200 noTokens), noFault⟩ "alice" "secret"
      loggedIn).2.store.refreshToken = some "r1" :=
  have h := loginUser_token_slots_frame ⟨answering (jsonResponse 200 noTokens), noFault⟩
    "alice" "secret" loggedIn (jsonResponse 200 (.obj [])) (jsonResponse 200 noTokens) noTokens
    (fun _ _ => rfl) rfl rfl rfl rfl rfl rfl
  ⟨h.1, h.2.1, h.2.2.2 (by decide)⟩

/-- C29: the semester-registration selection has unique course codes.  After any
sequence of events from the state on mount (presses on courses, edits of the
custom-course form, presses on the add button) no two entries of
`selectedCourses` share a code.  `toggleCourse` removes every entry with the
code of the course when one is present and otherwise appends the course;
`addCustomCourse` leaves the selection unchanged when the code, the name or the
credits input is empty, or when the code is already selected. -/
theorem selection_codes_unique (parseInt : String → Option Int)
    (events : List SelectionEvent) :
    (selectionAfter parseInt events).codes.Nodup ∧
    (∀ st course, (∃ x ∈ st.selectedCourses, x.code = course.code) →
      (toggleCourse st course).selectedCourses =
        st.selectedCourses.filter (fun c => c.code != course.code) ∧
      course.code ∉ (toggleCourse st course).codes) ∧
    (∀ st course, (∀ x ∈ st.selectedCourses, x.code ≠ course.code) →
      (toggleCourse st course).selectedCourses = st.selectedCourses ++ [course]) ∧
    (∀ st, (st.customCourse.code = "" ∨ st.customCourse.name = "" ∨
        st.customCourse.credits = "" ∨ st.customCourse.code ∈ st.codes) →
      (addCustomCourse parseInt st).selectedCourses = st.selectedCourses) := by
  refine ⟨foldl_nodup parseInt events _ List.nodup_nil, ?_, ?_, ?_⟩
  · intro st course hex
    cases hf : st.selectedCourses.find? (fun c => c.code == course.code) with
    | none =>
      obtain ⟨x, hx, hxc⟩ := hex
      exact absurd hxc (find_code_none hf x hx)
    | some y =>
      have hsel : (toggleCourse st course).selectedCourses =
          st.selectedCourses.filter (fun c => c.code != course.code) := by
        simp only [toggleCourse, hf]
      refine ⟨hsel, ?_⟩
      simp only [Selection.codes, hsel, List.mem_map, List.mem_filter, not_exists, not_and]
      intro x hx hxc
      simp [hxc] at hx
  · intro st course hno
    have hf : st.selectedCourses.find? (fun c => c.code == course.code) = none := by
      rw [List.find?_eq_none]
      intro x hx
      simpa using hno x hx
    simp only [toggleCourse, hf]
  · intro st h
    unfold addCustomCourse
    split
    · rfl
    · rename_i hfilled
      rcases h with h | h | h | h
      · exact absurd (Or.inl h) hfilled
      · exact absurd (Or.inr (Or.inl h)) hfilled
      · exact absurd (Or.inr (Or.inr h)) hfilled
      · cases hf : st.selectedCourses.find? (fun c => c.code == st.customCourse.code) with
        | some y => rfl
        | none =>
          obtain ⟨x, hx, hxc⟩ := List.mem_map.1 h
          exact absurd hxc (find_code_none hf x hx)

theorem selection_codes_unique_witness :
    (selectionAfter (fun s => s.toInt?)
      [.toggle ⟨"CS101", "Introduction to Computer Science", some 3⟩, .typeCode "CS101",
        .typeName "Again", .typeCredits "3", .add, .typeCode "BIO7", .add,
        .toggle ⟨"MATH101", "Calculus I", some 3⟩]).codes.Nodup ∧
    (toggleCourse ⟨[⟨"CS101", "Introduction to Computer Science", some 3⟩], ⟨"", "", ""⟩, []⟩
      ⟨"CS101", "Other", none⟩).selectedCourses = [] :=
  have h := selection_codes_unique (fun s => s.toInt?)
    [.toggle ⟨"CS101", "Introduction to Computer Science", some 3⟩, .typeCode "CS101",
      .typeName "Again", .typeCredits "3", .add, .typeCode "BIO7", .add,
      .toggle ⟨"MATH101", "Calculus I", some 3⟩]
  ⟨h.1, (h.2.1 ⟨[⟨"CS101", "Introduction to Computer Science", some 3⟩], ⟨"", "", ""⟩, []⟩
    ⟨"CS101", "Other", none⟩ ⟨_, List.mem_singleton.2 rfl, rfl⟩).1⟩

/-- C30, as stated, fails: a password of three characters is accepted when each
of them is an emoji above U+FFFF, since `password.length` counts six UTF-16
code units for it. -/
theorem validateForm_accepts_three_characters :
    validateForm ⟨"alice", "alice@example.org", threeEmoji, threeEmoji, "student"⟩ =
      (true, none) ∧
    threeEmoji.length = 3 ∧ threeEmoji.data = [Char.ofNat 0x1F600, Char.ofNat 0x1F600,
      Char.ofNat 0x1F600] :=
  ⟨by decide, rfl, rfl⟩

/-- C30: the registration form validator.  `validateForm` returns `true` if and only
if username, email and password are non-empty, password equals confirmPassword,
the password has at least 6 UTF-16 code units (its characters, those above
U+FFFF counted twice), and the email has the shape `local@domain.tld` with
`local`, `domain` and `tld` non-empty and free of white space and `@`; when
several checks fail the alert is that of the first failing one, in the order
required fields, password match, password length, email format. -/
theorem validateForm_accepts_iff (formData : FormData) :
    ((validateForm formData).1 = true ↔
      formData.username ≠ "" ∧ formData.email ≠ "" ∧ formData.password ≠ "" ∧
      formData.password = formData.confirmPassword ∧
      6 ≤ formData.password.length + astralCount formData.password ∧
      emailShape formData.email) ∧
    (formData.username = "" ∨ formData.email = "" ∨ formData.password = "" →
      validateForm formData = (false, some "Please fill in all required fields")) ∧
    (¬ (formData.username = "" ∨ formData.email = "" ∨ formData.password = "") →
      formData.password ≠ formData.confirmPassword →
      validateForm formData = (false, some "Passwords do not match")) ∧
    (¬ (formData.username = "" ∨ formData.email = "" ∨ formData.password = "") →
      formData.password = formData.confirmPassword →
      formData.password.length + astralCount formData.password < 6 →
      validateForm formData = (false, some "Password must be at least 6 characters long")) ∧
    (¬ (formData.username = "" ∨ formData.email = "" ∨ formData.password = "") →
      formData.password = formData.confirmPassword →
      6 ≤ formData.password.length + astralCount formData.password →
      ¬ emailShape formData.email →
      validateForm formData = (false, some "Please enter a valid email address")) := by
  have hlen := jsLength_eq formData.password
  have e1 : formData.username = "" ∨ formData.email = "" ∨ formData.password = "" →
      validateForm formData = (false, some "Please fill in all required fields") := by
    intro h1
    rw [validateForm, if_pos h1]
  have e2 : ¬ (formData.username = "" ∨ formData.email = "" ∨ formData.password = "") →
      formData.password ≠ formData.confirmPassword →
      validateForm formData = (false, some "Passwords do not match") := by
    intro h1 h2
    rw [validateForm, if_neg h1, if_pos h2]
  have e3 : ¬ (formData.username = "" ∨ formData.email = "" ∨ formData.password = "") →
      formData.password = formData.confirmPassword →
      formData.password.length + astralCount formData.password < 6 →
      validateForm formData = (false, some "Password must be at least 6 characters long") := by
    intro h1 h2 h3
    rw [← hlen] at h3
    rw [validateForm, if_neg h1, if_neg (not_not.2 h2), if_pos h3]
  have e4 : ¬ (formData.username = "" ∨ formData.email = "" ∨ formData.password = "") →
      formData.password = formData.confirmPassword →
      6 ≤ formData.password.length + astralCount formData.password →
      ¬ emailShape formData.email →
      validateForm formData = (false, some "Please enter a valid email address") := by
    intro h1 h2 h3 h4
    rw [← hlen] at h3
    have h4' : (!emailRegex.test formData.email) = true := by
      cases h : emailRegex.test formData.email
      · rfl
      · exact absurd ((emailRegex_test_iff _).1 h) h4
    rw [validateForm, if_neg h1, if_neg (not_not.2 h2), if_neg (Nat.not_lt.2 h3), if_pos h4']
  have e5 : ¬ (formData.username = "" ∨ formData.email = "" ∨ formData.password = "") →
      formData.password = formData.confirmPassword →
      6 ≤ formData.password.length + astralCount formData.password →
      emailShape formData.email → validateForm formData = (true, none) := by
    intro h1 h2 h3 h4
    rw [← hlen] at h3
    have h4' : ¬ (!emailRegex.test formData.email) = true := by
      rw [(emailRegex_test_iff _).2 h4]; simp
    rw [validateForm, if_neg h1, if_neg (not_not.2 h2), if_neg (Nat.not_lt.2 h3), if_neg h4']
  refine ⟨?_, e1, e2, e3, e4⟩
  constructor
  · intro h
    by_cases h1 : formData.username = "" ∨ formData.email = "" ∨ formData.password = ""
    · rw [e1 h1] at h; cases h
    · by_cases h2 : formData.password = formData.confirmPassword
      · by_cases h3 : 6 ≤ formData.password.length + astralCount formData.password
        · by_cases h4 : emailShape formData.email
          · simp only [not_or] at h1
            exact ⟨h1.1, h1.2.1, h1.2.2, h2, h3, h4⟩
          · rw [e4 h1 h2 h3 h4] at h; cases h
        · rw [e3 h1 h2 (Nat.lt_of_not_le h3)] at h; cases h
      · rw [e2 h1 h2] at h; cases h
  · rintro ⟨hu, he, hp, h2, h3, h4⟩
    have h1 : ¬ (formData.username = "" ∨ formData.email = "" ∨ formData.password = "") := by
      simp only [not_or]; exact ⟨hu, he, hp⟩
    rw [e5 h1 h2 h3 h4]

theorem validateForm_accepts_iff_witness :
    validateForm ⟨"alice", "alice@example.org", "abc", "abc", "student"⟩ =
      (false, some "Password must be at least 6 characters long") ∧
    validateForm ⟨"alice", "a b@example.org", "secret1", "secret1", "student"⟩ =
      (false, some "Please enter a valid email address") :=
  ⟨(validateForm_accepts_iff ⟨"alice", "alice@example.org", "abc", "abc", "student"⟩).2.2.2.1
    (by decide) rfl (by decide),
   (validateForm_accepts_iff
      ⟨"alice", "a b@example.org", "secret1", "secret1", "student"⟩).2.2.2.2
    (by decide) rfl (by decide)
    (fun h => absurd ((emailRegex_test_iff "a b@example.org").2 h) (by decide))⟩

end Session
